import Mathlib

set_option maxRecDepth 8000

/-!
Verification of the rustengan Maelstrom workload solutions.

Shallow embedding of the Rust sources:
  src/lib.rs               — message envelope, reply construction, main event loop
  src/bin/broadcast.rs     — gossip-based replicated set
  src/bin/single-kafka.rs  — single-node byte-log Kafka storage
  src/bin/multi-kafka.rs   — multi-node Kafka on the lin-kv service
  src/bin/counter.rs       — grow-only counter on the seq-kv service

Machine integers (u64) are modelled as Nat; the places where the source
performs arithmetic that can wrap in release builds carry an explicit
`% 2 ^ 64`.  Random draws (rand::Rng) are modelled by oracle functions
supplied as parameters, so theorems quantify over every possible outcome.
Blocking channel receives are modelled against an explicit queue of
pending events; an exhausted queue yields the distinguished error
`blocked` (standing for the source's wall-clock timeout / indefinite
blocking, which has no wall clock in the model).
-/

namespace Rustengan

/-! ## Rust u64 parsing and printing

`str::parse::<u64>` accepts an optional leading '+' followed by one or
more ASCII digits and fails on overflow.  Computing in Nat and rejecting
a final value ≥ 2^64 is equivalent: the accumulator is monotone, so an
intermediate overflow happens iff the final value overflows. -/

/-- Decimal digit accumulator: the digit-by-digit loop of Rust's
`from_str_radix` (radix 10), returning `none` at the first non-digit. -/
def parseDigitsAcc : List Char → Nat → Option Nat
  | [], acc => some acc
  | c :: cs, acc =>
    if c.isDigit then parseDigitsAcc cs (acc * 10 + (c.toNat - 48)) else none

/-- `str::parse::<u64>()` from the Rust standard library: strip one
leading '+', require a nonempty all-digit remainder, reject overflow. -/
def rustParseU64 (s : String) : Option Nat :=
  let chars := if s.data.head? = some '+' then s.data.tail else s.data
  match chars with
  | [] => none
  | _ :: _ =>
    match parseDigitsAcc chars 0 with
    | some n => if n < 2 ^ 64 then some n else none
    | none => none

/-- Most-significant-first decimal digits of `n`, fuelled so that it is
structurally recursive (any fuel > number of digits gives the digits;
`natToString` below always supplies enough). -/
def natDigitsAux : Nat → Nat → List Char
  | 0, _ => []
  | fuel + 1, n =>
    if n < 10 then [Nat.digitChar n]
    else natDigitsAux fuel (n / 10) ++ [Nat.digitChar (n % 10)]

/-- `u64::to_string()` / `format!("{}")` for an unsigned integer:
decimal digits, no sign, no padding. -/
def natToString (n : Nat) : String :=
  String.mk (natDigitsAux (n + 1) n)

/-! ## Message envelope (src/lib.rs) -/

/-- `Body<Payload>`: `msg_id`, `in_reply_to`, flattened payload. -/
structure Body (P : Type) where
  id : Option Nat
  inReplyTo : Option Nat
  payload : P
  deriving Repr, DecidableEq

/-- `Message<Payload>`: envelope `{src, dest, body}`. -/
structure Message (P : Type) where
  src : String
  dst : String
  body : Body P
  deriving Repr, DecidableEq

/-- `Message::into_reply(Some(&mut id))` (src/lib.rs:117-131): swap
src/dst, assign the current counter as `msg_id`, set `in_reply_to` to
the request's `msg_id`, keep the payload; the counter increments.
All call sites of interest pass `Some`, so the model takes the counter
value and returns the incremented counter alongside the reply. -/
def Message.into_reply {P : Type} (m : Message P) (counter : Nat) :
    Message P × Nat :=
  ({ src := m.dst, dst := m.src,
     body := { id := some counter, inReplyTo := m.body.id,
               payload := m.body.payload } },
   counter + 1)

/-- `Message::kv_message` (src/lib.rs:133-155) followed by the payload
assignment every caller performs: a fresh outbound message carrying the
current counter as `msg_id`; the counter increments at the call site. -/
def kv_message {P : Type} (nodeId typ : String) (counter : Nat)
    (inReplyTo : Option Nat) (payload : P) : Message P :=
  { src := nodeId, dst := typ,
    body := { id := some counter, inReplyTo := inReplyTo, payload := payload } }

/-- `Event<Payload>` (src/lib.rs:166-171); the injected payload is a
unit tick for the workloads modelled here. -/
inductive Event (P : Type) where
  | message (m : Message P)
  | injected
  | eof
  deriving Repr, DecidableEq

/-- `GanError` (src/lib.rs:195-211), restricted to the variants reachable
in the modelled code; `blocked` stands for a receive that never gets a
matching reply (the source's 1 s timeout error / indefinite block). -/
inductive Err where
  | rpc (code : Nat) (text : String)
  | preconditionFailed
  | keyNotExist
  | normal (text : String)
  | blocked
  deriving Repr, DecidableEq

/-! ## Association lists standing for HashMap / the KV store state -/

/-- Lookup in an association list (HashMap get with unique keys). -/
def alGet {α : Type} : List (String × α) → String → Option α
  | [], _ => none
  | (a, b) :: t, k => if a = k then some b else alGet t k

/-- Overwriting insert (HashMap::insert). -/
def alPut {α : Type} : List (String × α) → String → α → List (String × α)
  | [], k, v => [(k, v)]
  | (a, b) :: t, k, v => if a = k then (k, v) :: t else (a, b) :: alPut t k v

/-- HashMap::remove returning the removed value and the rest. -/
def alRemove {α : Type} : List (String × α) → String → Option (α × List (String × α))
  | [], _ => none
  | (a, b) :: t, k =>
    if a = k then some (b, t)
    else match alRemove t k with
      | none => none
      | some (v, rest) => some (v, (a, b) :: rest)

/-- HashMap::remove with the value dropped (erase). -/
def alErase {α : Type} : List (String × α) → String → List (String × α)
  | [], _ => []
  | (a, b) :: t, k => if a = k then t else (a, b) :: alErase t k

/-! ## Single-node Kafka (src/bin/single-kafka.rs) -/

namespace SingleKafka

/-- Little-endian bytes of a u32 (`u32::to_le_bytes`). -/
def u32le (n : Nat) : List Nat :=
  [n % 256, n / 256 % 256, n / 256 ^ 2 % 256, n / 256 ^ 3 % 256]

/-- Little-endian bytes of a u64 (`u64::to_le_bytes`). -/
def u64le (n : Nat) : List Nat :=
  [n % 256, n / 256 % 256, n / 256 ^ 2 % 256, n / 256 ^ 3 % 256,
   n / 256 ^ 4 % 256, n / 256 ^ 5 % 256, n / 256 ^ 6 % 256, n / 256 ^ 7 % 256]

/-- `KafkaStorage<String, u64>` (src/bin/single-kafka.rs:87-94):
byte log, per-topic offset queues, committed offsets, byte cursor. -/
structure KafkaStorage where
  data_block : List Nat
  topic_offsets : List (String × List Nat)
  topic_committed_offsets : List (String × Nat)
  current_offset : Nat
  deriving Repr, DecidableEq

/-- The fresh storage built by `from_init` (src/bin/single-kafka.rs:27-37). -/
def initStorage : KafkaStorage :=
  { data_block := [], topic_offsets := [], topic_committed_offsets := [],
    current_offset := 0 }

/-- Push an offset onto a topic's queue
(`topic_offsets.entry(key).or_insert(default).push_back(offset)`). -/
def pushOffset : List (String × List Nat) → String → Nat → List (String × List Nat)
  | [], k, o => [(k, [o])]
  | (a, q) :: t, k, o =>
    if a = k then (a, q ++ [o]) :: t else (a, q) :: pushOffset t k o

/-- `KafkaStorage::send` (src/bin/single-kafka.rs:139-151): the returned
offset is the current BYTE cursor; the record `[u32 len][u64 ofs][u64 v]`
(4+8+8 = 20 bytes for V = u64) is appended and the cursor advances by the
record length.  Returns (offset, storage'). -/
def send (st : KafkaStorage) (key : String) (value : Nat) : Nat × KafkaStorage :=
  let offset := st.current_offset
  let r := u64le offset ++ u64le value
  let record_length := r.length + 4
  ( offset,
    { data_block := st.data_block ++ u32le record_length ++ r,
      topic_offsets := pushOffset st.topic_offsets key offset,
      topic_committed_offsets := st.topic_committed_offsets,
      current_offset := st.current_offset + record_length } )

/-- `KafkaStorage::commit_offsets` (src/bin/single-kafka.rs:177-185):
each pair overwrites the committed offset of its key. -/
def commit_offsets (st : KafkaStorage) (offsets : List (String × Nat)) :
    KafkaStorage :=
  { st with topic_committed_offsets :=
      offsets.foldl (fun m p => alPut m p.1 p.2) st.topic_committed_offsets }

/-- `KafkaStorage::list_committed_offsets` (src/bin/single-kafka.rs:187-194):
keys without a committed offset are dropped. -/
def list_committed_offsets (st : KafkaStorage) (keys : List String) :
    List (String × Nat) :=
  keys.filterMap fun k => (alGet st.topic_committed_offsets k).map ((k, ·))

end SingleKafka

/-! ## Broadcast (src/bin/broadcast.rs)

Random draws (`rng.gen_ratio`) are replaced by oracle functions: the
topology extension filter becomes `sel : String → Bool` and the gossip
piggyback sample becomes `gsel : Nat → Bool`, so every theorem quantifies
over all possible random outcomes.  (When `gen_ratio`'s numerator equals
its denominator the real draw is forced to true; the oracle is a superset
of the real behaviours, which is sound for the safety properties proved
here.)  The gossip waker condition variable is wall-clock machinery with
no observable effect on the state fields the claims mention and is not
modelled; `gossip_delta` is. -/

namespace Broadcast

/-- The broadcast `Payload` enum (src/bin/broadcast.rs:187-208). -/
inductive BPayload where
  | broadcast (message : Nat)
  | broadcastOk
  | read
  | readOk (messages : Finset Nat)
  | topology (topology : List (String × List String))
  | topologyOk
  | gossip (seen : Finset Nat)
  | gossipOk
  deriving DecidableEq

abbrev BMsg := Message BPayload

/-- `BroadcastNode` state (src/bin/broadcast.rs:17-25). -/
structure BState where
  id : Nat
  node_id : String
  messages : Finset Nat
  neighborhood : List String
  known : List (String × Finset Nat)
  gossip_delta : Nat
  deriving DecidableEq

/-- `from_init` (src/bin/broadcast.rs:58-71): counter 1, empty messages,
empty neighborhood, an empty known set for every node id. -/
def initState (node_id : String) (node_ids : List String) : BState :=
  { id := 1, node_id := node_id, messages := ∅, neighborhood := [],
    known := node_ids.map (fun nid => (nid, ∅)), gossip_delta := 0 }

/-- The topology handler's neighborhood computation
(src/bin/broadcast.rs:95-114): take `topology[self]` as seed (panicking,
modelled `none`, when absent), remove self and the seeds from the map,
extend by a random subset of the remaining keys, then call
`Vec::shrink_to(topology_length / 2)` — which only lowers CAPACITY and
leaves the contents untouched, so no truncation happens. -/
def newNeighborhood (topology : List (String × List String))
    (selfId : String) (sel : String → Bool) : Option (List String) :=
  match alRemove topology selfId with
  | none => none
  | some (seed, t1) =>
    let t2 := seed.foldl (fun acc c => alErase acc c) t1
    some (seed ++ (t2.map Prod.fst).filter sel)

/-- Gossip fan-out (`BroadcastNode::gossip`, src/bin/broadcast.rs:150-184):
for each neighbor, send the values it does not yet know plus a sampled
subset of the values it does; the message is built with `id: None`
(src/bin/broadcast.rs:171-179).  `known[n]` indexing panics (modelled
`none`) for a neighbor with no known entry. -/
def gossipMsgs (s : BState) (gsel : Nat → Bool) :
    List String → Option (List BMsg)
  | [] => some []
  | n :: ns =>
    match alGet s.known n with
    | none => none
    | some knows =>
      let already_known := s.messages.filter (fun m => m ∈ knows)
      let notify_of := s.messages.filter (fun m => m ∉ knows)
      let seen := notify_of ∪ already_known.filter (fun m => gsel m = true)
      match gossipMsgs s gsel ns with
      | none => none
      | some rest =>
        some ({ src := s.node_id, dst := n,
                body := { id := none, inReplyTo := none,
                          payload := .gossip seen } } :: rest)

/-- One Broadcast event: a message with the topology-extension oracle, an
injected gossip tick with the sampling oracle, or end of input. -/
inductive BEvent where
  | message (m : BMsg) (sel : String → Bool)
  | injectedGossip (gsel : Nat → Bool)
  | eof

/-- `BroadcastNode::step` (src/bin/broadcast.rs:73-146).  `none` models a
panic (`expect`/`unwrap` failure).  For a message event `into_reply` runs
first, so the counter increments even in arms that send nothing. -/
def step (s : BState) (ev : BEvent) : Option (BState × List BMsg) :=
  match ev with
  | .eof => some (s, [])
  | .injectedGossip gsel =>
    match gossipMsgs s gsel s.neighborhood with
    | none => none
    | some out => some (s, out)
  | .message input sel =>
    let (reply, id1) := input.into_reply s.id
    match input.body.payload with
    | .broadcast m =>
      some ({ s with id := id1, messages := insert m s.messages },
            [{ reply with body := { reply.body with payload := .broadcastOk } }])
    | .read =>
      some ({ s with id := id1 },
            [{ reply with body := { reply.body with
                 payload := .readOk s.messages } }])
    | .topology topology =>
      match newNeighborhood topology s.node_id sel with
      | none => none
      | some nbr =>
        some ({ s with id := id1, neighborhood := nbr },
              [{ reply with body := { reply.body with payload := .topologyOk } }])
    | .gossip seen =>
      match alGet s.known reply.dst with
      | none => none
      | some ks =>
        let before := s.messages.card
        let messages1 := s.messages ∪ seen
        let dlt := messages1.card - before
        let gd := if s.gossip_delta ≤ dlt then dlt else s.gossip_delta
        let known1 := alPut s.known reply.dst (ks ∪ seen)
        some ({ s with
                  id := id1
                  known := known1
                  messages := messages1
                  gossip_delta := gd },
              [])
    | .gossipOk | .broadcastOk | .topologyOk | .readOk _ =>
      some ({ s with id := id1 }, [])

/-- The main loop (src/lib.rs:53-58) running the broadcast node over a
queue of events, collecting every outbound message in order. -/
def run (s : BState) : List BEvent → Option (BState × List BMsg)
  | [] => some (s, [])
  | ev :: rest =>
    match step s ev with
    | none => none
    | some (s1, out) =>
      match run s1 rest with
      | none => none
      | some (s2, out') => some (s2, out ++ out')

/-- The values delivered to the node by `broadcast` requests in an event
list. -/
def deliveredValues (evs : List BEvent) : List Nat :=
  evs.filterMap fun ev =>
    match ev with
    | .message m _ =>
      match m.body.payload with
      | .broadcast v => some v
      | _ => none
    | _ => none

/-- The per-peer invariant of claim C6: every known set is contained in
the local message set. -/
def KnownSub (s : BState) : Prop :=
  ∀ p ks, (p, ks) ∈ s.known → ks ⊆ s.messages

/-- True on a gossip payload. -/
def isGossipB : BPayload → Bool
  | .gossip _ => true
  | _ => false

/-- The outbound messages of a run (empty when the run panics). -/
def runOutputs (s : BState) (evs : List BEvent) : List BMsg :=
  match run s evs with
  | some (_, out) => out
  | none => []

/-- Claim C4 as stated, as a predicate on a node's outbound messages:
every one carries a msg_id, and the ids are strictly increasing starting
at 1.  (This transcribes the claim's words, to be compared with what the
code does; the theorems refute it and prove the amended version.) -/
def msgIdsClaim (out : List BMsg) : Prop :=
  (∀ m ∈ out, (m.body.id).isSome = true) ∧
  (out.filterMap fun m => m.body.id).head? = some 1 ∧
  List.Chain' (· < ·) (out.filterMap fun m => m.body.id)

/-- Concrete fixture for claims C4 and C6: a gossip from n2, a broadcast
of 42, a topology install, then an injected gossip tick, with every
random draw false. -/
def demoEvents : List BEvent :=
  [.message { src := "n2", dst := "n1",
              body := { id := some 1, inReplyTo := none,
                        payload := .gossip ∅ } } (fun _ => false),
   .message { src := "c1", dst := "n1",
              body := { id := some 3, inReplyTo := none,
                        payload := .broadcast 42 } } (fun _ => false),
   .message { src := "c1", dst := "n1",
              body := { id := some 4, inReplyTo := none,
                        payload := .topology [("n1", ["n2"]), ("n2", [])] } }
     (fun _ => false),
   .injectedGossip (fun _ => false)]

end Broadcast

/-! ## Multi-node Kafka on lin-kv (src/bin/multi-kafka.rs)

The node's synchronous RPCs read replies from the same event queue the
main loop consumes.  The model threads an explicit context `Ctx` holding
the msg-id counter, the `in_reply_to` cell of the `Runtime`, the stash,
the remaining queue and the outbound messages written so far.  Loops that
wait for a reply are fuelled with one unit per queue element plus one,
which is always enough because every iteration consumes one queue
element; running out models blocking forever / the 1 s timeout. -/

namespace MultiKafka

/-- The multi-kafka `Payload` enum (src/bin/multi-kafka.rs:476-530).
`error.code` is a u8 in the source. -/
inductive KPayload where
  | send (key : String) (msg : Nat)
  | forwardSend (key : String) (msg : Nat)
  | sendOk (offset : Nat)
  | poll (offsets : List (String × Nat))
  | pollOk (msgs : List (String × List (Nat × Nat)))
  | commitOffsets (offsets : List (String × Nat))
  | commitOffsetsOk
  | listCommittedOffsets (keys : List String)
  | listCommittedOffsetsOk (offsets : List (String × Nat))
  | error (code : Nat) (text : String)
  | kvRead (key : String)
  | readOk (value : String)
  | write (key : String) (value : String)
  | writeOk
  | cas (key : String) (fromVal : String) (toVal : String)
      (create_if_not_exists : Bool)
  | casOk
  deriving DecidableEq

abbrev KMsg := Message KPayload

/-- The mutable context a `Runtime` plus the `LinKv` storage carry through
an RPC: msg-id counter, `in_reply_to`, `stash_event`, the remaining event
queue, and the outbound messages written to stdout so far. -/
structure Ctx where
  id : Nat
  node_id : String
  in_reply_to : Option Nat
  stash_event : List KMsg
  queue : List KMsg
  sent : List KMsg
  deriving DecidableEq

namespace LinKv

/-- Receive loop of `LinKv::read` (src/bin/multi-kafka.rs:334-369):
consume the expected reply, translate error code 20 into `Ok("")`
(`Default::default()` for String), propagate other codes, stash
client/peer traffic, reject other payloads.  `in_reply_to` is updated in
exactly the arms the source updates it in. -/
def readLoop : Nat → Ctx → Except Err String × Ctx
  | 0, c => (.error .blocked, c)
  | fuel + 1, c =>
    match c.queue with
    | [] => (.error .blocked, c)
    | input :: rest =>
      let c1 := { c with queue := rest }
      match input.body.payload with
      | .readOk v => (.ok v, { c1 with in_reply_to := input.body.id })
      | .error 20 _ => (.ok "", { c1 with in_reply_to := input.body.id })
      | .error code text =>
        (.error (.rpc code text), { c1 with in_reply_to := input.body.id })
      | .send _ _ | .poll _ | .sendOk _ | .commitOffsets _
      | .listCommittedOffsets _ | .forwardSend _ _ =>
        readLoop fuel { c1 with stash_event := c1.stash_event ++ [input] }
      | _ => (.error (.normal "should not exist invalid response"), c1)

/-- `LinKv::read` (src/bin/multi-kafka.rs:325-370): send a `read` request
to lin-kv, then wait in `readLoop`. -/
def read (c : Ctx) (key : String) : Except Err String × Ctx :=
  let req := kv_message c.node_id "lin-kv" c.id c.in_reply_to
    (KPayload.kvRead key)
  let c1 := { c with id := c.id + 1, sent := c.sent ++ [req] }
  readLoop (c1.queue.length + 1) c1

/-- Receive loop of `LinKv::write` (src/bin/multi-kafka.rs:384-414):
every error code propagates as an RPC error. -/
def writeLoop : Nat → Ctx → Except Err Unit × Ctx
  | 0, c => (.error .blocked, c)
  | fuel + 1, c =>
    match c.queue with
    | [] => (.error .blocked, c)
    | input :: rest =>
      let c1 := { c with queue := rest }
      match input.body.payload with
      | .writeOk => (.ok (), { c1 with in_reply_to := input.body.id })
      | .error code text =>
        (.error (.rpc code text), { c1 with in_reply_to := input.body.id })
      | .send _ _ | .poll _ | .sendOk _ | .commitOffsets _
      | .listCommittedOffsets _ | .forwardSend _ _ =>
        writeLoop fuel { c1 with stash_event := c1.stash_event ++ [input] }
      | _ => (.error (.normal "should not exist invalid response"), c1)

/-- `LinKv::write` (src/bin/multi-kafka.rs:372-415). -/
def write (c : Ctx) (key : String) (value : String) : Except Err Unit × Ctx :=
  let req := kv_message c.node_id "lin-kv" c.id c.in_reply_to
    (KPayload.write key value)
  let c1 := { c with id := c.id + 1, sent := c.sent ++ [req] }
  writeLoop (c1.queue.length + 1) c1

/-- Receive loop of `LinKv::compare_exchange`
(src/bin/multi-kafka.rs:436-472): code 22 becomes the typed
precondition-failed error, code 20 the typed key-not-exist error. -/
def casLoop : Nat → Ctx → Except Err Unit × Ctx
  | 0, c => (.error .blocked, c)
  | fuel + 1, c =>
    match c.queue with
    | [] => (.error .blocked, c)
    | input :: rest =>
      let c1 := { c with queue := rest }
      match input.body.payload with
      | .casOk => (.ok (), { c1 with in_reply_to := input.body.id })
      | .error 22 _ =>
        (.error .preconditionFailed, { c1 with in_reply_to := input.body.id })
      | .error 20 _ =>
        (.error .keyNotExist, { c1 with in_reply_to := input.body.id })
      | .error code text =>
        (.error (.rpc code text), { c1 with in_reply_to := input.body.id })
      | .send _ _ | .sendOk _ | .poll _ | .commitOffsets _
      | .listCommittedOffsets _ | .forwardSend _ _ =>
        casLoop fuel { c1 with stash_event := c1.stash_event ++ [input] }
      | _ => (.error (.normal "should not exist invalid response"), c1)

/-- `LinKv::compare_exchange` (src/bin/multi-kafka.rs:417-473).  Defined
by the source to satisfy the `KV` trait but never called by any
multi-kafka code path. -/
def compare_exchange (c : Ctx) (key : String) (fromVal toVal : String)
    (create_if_not_exists : Bool) : Except Err Unit × Ctx :=
  let req := kv_message c.node_id "lin-kv" c.id c.in_reply_to
    (KPayload.cas key fromVal toVal create_if_not_exists)
  let c1 := { c with id := c.id + 1, sent := c.sent ++ [req] }
  casLoop (c1.queue.length + 1) c1

/-- `String::new_key` of the `EntriesExt` trait
(src/bin/multi-kafka.rs:218-221): the segment key
`entry_<k>_<start>-<start+20>` with `start = offset - offset % 20`
(`BATCH_SIZE = 20`). -/
def new_key (key : String) (offset : Nat) : String :=
  let start := offset - offset % 20
  "entry_" ++ key ++ "_" ++ natToString start ++ "-" ++ natToString (start + 20)

/-- `String::append` of the `EntriesExt` trait
(src/bin/multi-kafka.rs:211-216): comma-separate `"<offset>:<value>"`. -/
def entriesAppend (s : String) (offset value : Nat) : String :=
  if s.isEmpty then natToString offset ++ ":" ++ natToString value
  else s ++ "," ++ natToString offset ++ ":" ++ natToString value

/-- `LinKv::send` (src/bin/multi-kafka.rs:225-239): read `latest_<k>`,
compute `parse.map(|x| x+1).unwrap_or(0)` (the `+ 1` wraps at 2^64 in a
release build), install it with a PLAIN `write`, then read the segment,
append `"<o>:<v>"` and write the segment back.  No compare-and-swap is
issued anywhere on this path. -/
def send (c : Ctx) (key : String) (value : Nat) : Except Err Nat × Ctx :=
  let latest_key := "latest_" ++ key
  match read c latest_key with
  | (.error e, c1) => (.error e, c1)
  | (.ok s0, c1) =>
    let offset :=
      match rustParseU64 s0 with
      | some x => (x + 1) % 2 ^ 64
      | none => 0
    match write c1 latest_key (natToString offset) with
    | (.error e, c2) => (.error e, c2)
    | (.ok _, c2) =>
      let entry_key := new_key key offset
      match read c2 entry_key with
      | (.error e, c3) => (.error e, c3)
      | (.ok entries, c3) =>
        match write c3 entry_key (entriesAppend entries offset value) with
        | (.error e, c4) => (.error e, c4)
        | (.ok _, c4) => (.ok offset, c4)

/-- `str::split_once(':')`: split at the first colon. -/
def split_once_colon (s : String) : Option (String × String) :=
  match s.splitOn ":" with
  | [] => none
  | [_] => none
  | a :: rest => some (a, String.intercalate ":" rest)

/-- The entry-parsing loop body of `LinKv::read_segment`
(src/bin/multi-kafka.rs:255-262): split on commas, skip entries that do
not parse as `<u64>:<u64>`, keep pairs with offset ≥ the requested one. -/
def parseEntries (entries : String) (ofs : Nat) : List (Nat × Nat) :=
  (entries.splitOn ",").filterMap fun e =>
    match split_once_colon e with
    | none => none
    | some (os, vs) =>
      match rustParseU64 os, rustParseU64 vs with
      | some o, some v => if ofs ≤ o then some (o, v) else none
      | _, _ => none

/-- Segment walk of `LinKv::read_segment` (src/bin/multi-kafka.rs:241-266):
read consecutive segments starting at `ofs - ofs % 20`, stopping at the
first empty entries string. -/
def read_segment_go : Nat → Ctx → Nat → Nat → String → List (Nat × Nat) →
    Except Err Unit × List (Nat × Nat) × Ctx
  | 0, c, _, _, _, acc => (.error .blocked, acc, c)
  | fuel + 1, c, start, ofs, key, acc =>
    match read c (new_key key start) with
    | (.error e, c1) => (.error e, acc, c1)
    | (.ok entries, c1) =>
      if entries.isEmpty then (.ok (), acc, c1)
      else read_segment_go fuel c1 (start + 20) ofs key
        (acc ++ parseEntries entries ofs)

/-- `LinKv::read_segment` (src/bin/multi-kafka.rs:241-266). -/
def read_segment (c : Ctx) (ofs : Nat) (key : String) :
    Except Err Unit × List (Nat × Nat) × Ctx :=
  read_segment_go (c.queue.length + 1) c (ofs - ofs % 20) ofs key []

/-- Key loop of `LinKv::poll` (src/bin/multi-kafka.rs:277-283): walk each
key's segments, keeping keys with a nonempty result. -/
def pollGo (c : Ctx) : List (String × Nat) →
    List (String × List (Nat × Nat)) →
    Except Err (List (String × List (Nat × Nat))) × Ctx
  | [], acc => (.ok acc, c)
  | (key, ofs) :: rest, acc =>
    match read_segment c ofs key with
    | (.error e, _, c1) => (.error e, c1)
    | (.ok _, key_offsets, c1) =>
      pollGo c1 rest
        (if key_offsets.isEmpty then acc else acc ++ [(key, key_offsets)])

/-- `LinKv::poll` (src/bin/multi-kafka.rs:268-285). -/
def poll (c : Ctx) (offsets : List (String × Nat)) :
    Except Err (List (String × List (Nat × Nat))) × Ctx :=
  if offsets.isEmpty then (.ok [], c) else pollGo c offsets []

/-- Write loop of `LinKv::commit_offsets` (src/bin/multi-kafka.rs:295-299). -/
def commitGo (c : Ctx) : List (String × Nat) → Except Err Unit × Ctx
  | [] => (.ok (), c)
  | (key, ofs) :: rest =>
    match write c ("commit_" ++ key) (natToString ofs) with
    | (.error e, c1) => (.error e, c1)
    | (.ok _, c1) => commitGo c1 rest

/-- `LinKv::commit_offsets` (src/bin/multi-kafka.rs:287-300): a plain
overwrite of `commit_<k>` for each pair. -/
def commit_offsets (c : Ctx) (offsets : List (String × Nat)) :
    Except Err Unit × Ctx :=
  if offsets.isEmpty then (.ok (), c) else commitGo c offsets

/-- Key loop of `LinKv::list_committed_offsets`
(src/bin/multi-kafka.rs:310-318): read `commit_<k>`, silently dropping
keys whose read fails (`.ok()`) or whose value does not parse. -/
def listGo (c : Ctx) : List String → List (String × Nat) × Ctx
  | [] => ([], c)
  | k :: rest =>
    match read c ("commit_" ++ k) with
    | (.ok v, c1) =>
      let (tail, c2) := listGo c1 rest
      match rustParseU64 v with
      | some o => ((k, o) :: tail, c2)
      | none => (tail, c2)
    | (.error _, c1) => listGo c1 rest

/-- `LinKv::list_committed_offsets` (src/bin/multi-kafka.rs:302-319). -/
def list_committed_offsets (c : Ctx) (keys : List String) :
    List (String × Nat) × Ctx :=
  if keys.isEmpty then ([], c) else listGo c keys

end LinKv

/-- The routing decision of the `Send` arm of `KafkaNode::step`
(src/bin/multi-kafka.rs:130-153): when both the key and the node id's
byte suffix `node_id[1..]` parse as u64, the key hashes to owner
`k % node_ids.len()` and non-owners forward; any parse failure falls
through to local servicing.  `none` models the panics: byte-slicing an
empty node id, or `% 0` with an empty cluster.  (Node ids are ASCII
`nN`, so dropping one char equals dropping one byte.) -/
inductive Route where
  | localSend
  | forward (idx : Nat)
  deriving DecidableEq

def routeSend (key node_id : String) (numNodes : Nat) : Option Route :=
  if node_id.isEmpty then none
  else
    match rustParseU64 key, rustParseU64 (node_id.drop 1) with
    | some k, some nid =>
      if numNodes = 0 then none
      else if k % numNodes ≠ nid then some (.forward (k % numNodes))
      else some .localSend
    | _, _ => some .localSend

/-- Per-step node state: the msg-id counter and the persistent stash. -/
structure NodeState where
  id : Nat
  stash_event : List KMsg
  deriving DecidableEq

/-- Result of one `KafkaNode::step`: continue with a new state, queue and
outbound messages; abort with an error (the loop's `?`); or panic. -/
inductive StepResult where
  | ok (st : NodeState) (queue : List KMsg) (out : List KMsg)
  | fail (e : Err) (out : List KMsg)
  | panic
  deriving DecidableEq

/-- True on a `send_ok` payload. -/
def isSendOkP : KPayload → Bool
  | .sendOk _ => true
  | _ => false

/-- The outbound messages a step result carries. -/
def outOf : StepResult → List KMsg
  | .ok _ _ out => out
  | .fail _ out => out
  | .panic => []

/-- The common epilogue of `KafkaNode::step` (src/bin/multi-kafka.rs:187-191
and 144-148): send the reply, then drain the stash back onto the queue. -/
def finish (input : KMsg) (replyId : Nat) (payload : KPayload) (c : Ctx) :
    StepResult :=
  let reply : KMsg :=
    { src := input.dst, dst := input.src,
      body := { id := some replyId, inReplyTo := input.body.id,
                payload := payload } }
  .ok { id := c.id, stash_event := [] } (c.queue ++ c.stash_event)
    (c.sent ++ [reply])

/-- Receive loop of `KafkaNode::send_proxy_node`
(src/bin/multi-kafka.rs:36-87): wait for the owner's `send_ok`; service a
crossing `forward_send` inline (to break mutual-forwarding deadlock),
re-injecting any stashed `send_ok` to the back of the queue; stash other
client traffic.  Every received event builds a reply envelope first, so
the counter increments per event.  Fuel stands for the wall-clock bound;
no claim depends on this loop's termination behaviour. -/
def sendProxyGo : Nat → Ctx → Except Err KPayload × Ctx
  | 0, c => (.error .blocked, c)
  | fuel + 1, c =>
    match c.queue with
    | [] => (.error .blocked, c)
    | input :: rest =>
      let replyId := c.id
      let c1 := { c with id := c.id + 1, queue := rest }
      match input.body.payload with
      | .sendOk offset => (.ok (.sendOk offset), c1)
      | .forwardSend key msg =>
        match LinKv.send c1 key msg with
        | (.error e, c2) => (.error e, c2)
        | (.ok offset, c2) =>
          let reply : KMsg :=
            { src := input.dst, dst := input.src,
              body := { id := some replyId, inReplyTo := input.body.id,
                        payload := .sendOk offset } }
          let c3 := { c2 with sent := c2.sent ++ [reply] }
          let drained := c3.stash_event.filter fun m => isSendOkP m.body.payload
          let c4 :=
            { c3 with
                stash_event :=
                  c3.stash_event.filter fun m => !isSendOkP m.body.payload
                queue := c3.queue ++ drained }
          sendProxyGo fuel c4
      | .send _ _ | .poll _ | .commitOffsets _ | .listCommittedOffsets _ =>
        sendProxyGo fuel { c1 with stash_event := c1.stash_event ++ [input] }
      | _ => (.error (.normal "should not exist invalid response"), c1)

/-- `KafkaNode::send_proxy_node` (src/bin/multi-kafka.rs:24-88): wrap the
payload in a fresh message to the owner node, write it, then wait. -/
def send_proxy_node (c : Ctx) (payload : KPayload) (dest : String) :
    Except Err KPayload × Ctx :=
  let message : KMsg :=
    { src := c.node_id, dst := dest,
      body := { id := some c.id, inReplyTo := none, payload := payload } }
  let c1 := { c with id := c.id + 1, sent := c.sent ++ [message] }
  sendProxyGo (c1.queue.length + c1.stash_event.length + 1) c1

/-- `KafkaNode::step` (src/bin/multi-kafka.rs:107-192).  A non-message
event panics (src/bin/multi-kafka.rs:113-115).  `into_reply` runs first,
so the counter increments in every message arm; the `Error` arm logs to
stderr and returns `Ok(())` early — no reply is sent and the stash is
not drained. -/
def step (node_id : String) (node_ids : List String) (st : NodeState)
    (ev : Event KPayload) (queue : List KMsg) : StepResult :=
  match ev with
  | .injected => .panic
  | .eof => .panic
  | .message input =>
    let replyId := st.id
    let c0 : Ctx :=
      { id := st.id + 1, node_id := node_id, in_reply_to := none,
        stash_event := st.stash_event, queue := queue, sent := [] }
    match input.body.payload with
    | .forwardSend key msg =>
      match LinKv.send c0 key msg with
      | (.error e, c) => .fail e c.sent
      | (.ok offset, c) => finish input replyId (.sendOk offset) c
    | .send key msg =>
      match routeSend key node_id node_ids.length with
      | none => .panic
      | some (.forward idx) =>
        match node_ids[idx]? with
        | none => .panic
        | some dest =>
          match send_proxy_node c0 (.forwardSend key msg) dest with
          | (.error e, c) => .fail e c.sent
          | (.ok payload, c) => finish input replyId payload c
      | some .localSend =>
        match LinKv.send c0 key msg with
        | (.error e, c) => .fail e c.sent
        | (.ok offset, c) => finish input replyId (.sendOk offset) c
    | .poll offsets =>
      match LinKv.poll c0 offsets with
      | (.error e, c) => .fail e c.sent
      | (.ok msgs, c) => finish input replyId (.pollOk msgs) c
    | .commitOffsets offsets =>
      match LinKv.commit_offsets c0 offsets with
      | (.error e, c) => .fail e c.sent
      | (.ok _, c) => finish input replyId .commitOffsetsOk c
    | .listCommittedOffsets keys =>
      let (m, c) := LinKv.list_committed_offsets c0 keys
      finish input replyId (.listCommittedOffsetsOk m) c
    | .error _ _ =>
      .ok { id := st.id + 1, stash_event := st.stash_event } queue []
    | _ => .fail (.normal "should not exist invalid response for step") []

/-- Result of running the main loop: queue drained, aborted by a step
error (the `?` at src/lib.rs:57), panicked, or out of fuel. -/
inductive RunResult where
  | drained (st : NodeState) (out : List KMsg)
  | failed (e : Err) (out : List KMsg)
  | panicked (out : List KMsg)
  | outOfFuel (st : NodeState) (queue : List KMsg) (out : List KMsg)
  deriving DecidableEq

/-- The dispatch loop of `main_loop` (src/lib.rs:53-58) driving the
multi-kafka node over a queue of inbound messages, accumulating outbound
messages.  `node.step(input, ..)?` propagates a step error, ending the
loop (and the process). -/
def main_loop_go (node_id : String) (node_ids : List String) :
    Nat → NodeState → List KMsg → List KMsg → RunResult
  | 0, st, q, out => .outOfFuel st q out
  | _ + 1, st, [], out => .drained st out
  | fuel + 1, st, e :: q, out =>
    match step node_id node_ids st (.message e) q with
    | .ok st1 q1 o => main_loop_go node_id node_ids fuel st1 q1 (out ++ o)
    | .fail err o => .failed err (out ++ o)
    | .panic => .panicked out

/-- Modelled from the spec: the lin-kv service, an external collaborator
specified only by its RPC contract (spec §6): `read` answers `read_ok`
or error 20 on a missing key; `write` answers `write_ok`; `cas` answers
`cas_ok` when the stored value matches (or the key is absent and
`create_if_not_exists` holds), error 22 on a mismatch, error 20 on a
missing key without create. -/
def linKvService (st : List (String × String)) (req : KPayload) :
    KPayload × List (String × String) :=
  match req with
  | .kvRead key =>
    match alGet st key with
    | some v => (.readOk v, st)
    | none => (.error 20 "key does not exist", st)
  | .write key v => (.writeOk, alPut st key v)
  | .cas key f t create =>
    match alGet st key with
    | some cur =>
      if cur = f then (.casOk, alPut st key t)
      else (.error 22 "precondition failed", st)
    | none =>
      if create then (.casOk, alPut st key t)
      else (.error 20 "key does not exist", st)
  | _ => (.error 10 "not supported", st)

/-- The replies the lin-kv service gives to a request sequence. -/
def serviceReplies (st : List (String × String)) :
    List KPayload → List KPayload
  | [] => []
  | r :: rs =>
    (linKvService st r).1 :: serviceReplies (linKvService st r).2 rs

/-- The lin-kv store after a request sequence. -/
def serviceState (st : List (String × String)) :
    List KPayload → List (String × String)
  | [] => st
  | r :: rs => serviceState (linKvService st r).2 rs

/-- The KV requests among a node's outbound messages. -/
def kvRequests (msgs : List KMsg) : List KPayload :=
  (msgs.filter fun m => m.dst = "lin-kv").map fun m => m.body.payload

/-- Canonical inbound reply from the lin-kv service used in theorem
statements (the model never inspects the envelope of replies beyond
`body.id`, which the service leaves unset). -/
def kvReply (node_id : String) (p : KPayload) : KMsg :=
  { src := "lin-kv", dst := node_id,
    body := { id := none, inReplyTo := none, payload := p } }

/-- True on a `cas` request payload. -/
def isCasReq : KPayload → Bool
  | .cas _ _ _ _ => true
  | _ => false

/-- True on a `forward_send` payload. -/
def isForwardSendP : KPayload → Bool
  | .forwardSend _ _ => true
  | _ => false

/-- Claim C1's reading of the allocation algorithm, as a check on a
send's outbound messages: some compare-and-swap request on `latest_<k>`
is issued. -/
def allocatesByCas (out : List KMsg) (key : String) : Bool :=
  out.any fun m =>
    match m.body.payload with
    | .cas k _ _ _ => k = "latest_" ++ key
    | _ => false

/-! Concrete fixtures: a fresh single-node cluster `["n0"]` (the key
`"k1"` is non-numeric, so every node services it locally) and the
reply queues the lin-kv service produces for two successive sends. -/

def freshState : NodeState := { id := 1, stash_event := [] }

def clientSend (mid : Nat) (key : String) (msg : Nat) : KMsg :=
  { src := "c1", dst := "n0",
    body := { id := some mid, inReplyTo := none, payload := .send key msg } }

def freshSendReplies : List KMsg :=
  [kvReply "n0" (.error 20 "key does not exist"), kvReply "n0" .writeOk,
   kvReply "n0" (.error 20 "key does not exist"), kvReply "n0" .writeOk]

def secondSendReplies : List KMsg :=
  [kvReply "n0" (.readOk "0"), kvReply "n0" .writeOk,
   kvReply "n0" (.readOk "0:100"), kvReply "n0" .writeOk]

/-- Every outbound message of the first send on the fresh cluster: four
plain KV requests (ids 2-5) followed by the `send_ok{offset: 0}` reply. -/
def firstSendOut : List KMsg :=
  [kv_message "n0" "lin-kv" 2 none (.kvRead "latest_k1"),
   kv_message "n0" "lin-kv" 3 none (.write "latest_k1" "0"),
   kv_message "n0" "lin-kv" 4 none (.kvRead "entry_k1_0-20"),
   kv_message "n0" "lin-kv" 5 none (.write "entry_k1_0-20" "0:100"),
   { src := "n0", dst := "c1",
     body := { id := some 1, inReplyTo := some 5, payload := .sendOk 0 } }]

/-- Every outbound message of the second send, ending in
`send_ok{offset: 1}`. -/
def secondSendOut : List KMsg :=
  [kv_message "n0" "lin-kv" 7 none (.kvRead "latest_k1"),
   kv_message "n0" "lin-kv" 8 none (.write "latest_k1" "1"),
   kv_message "n0" "lin-kv" 9 none (.kvRead "entry_k1_0-20"),
   kv_message "n0" "lin-kv" 10 none (.write "entry_k1_0-20" "0:100,1:200"),
   { src := "n0", dst := "c1",
     body := { id := some 6, inReplyTo := some 6, payload := .sendOk 1 } }]

/-- The `LinKv` context of a send against a fresh store. -/
def freshCtx : Ctx :=
  { id := 2, node_id := "n0", in_reply_to := none, stash_event := [],
    queue := freshSendReplies, sent := [] }

/-- A send context whose second service reply is a precondition-failed
error (code 22), the situation claim C1 says triggers a retry. -/
def casRetryCtx : Ctx :=
  { id := 2, node_id := "n0", in_reply_to := none, stash_event := [],
    queue := [kvReply "n0" (.readOk "0"),
              kvReply "n0" (.error 22 "precondition failed")], sent := [] }

/-- A client poll request and an RPC-error service reply (code 13, one of
the codes outside the 20/22 special cases) used for claim C2. -/
def demoPoll : KMsg :=
  { src := "c1", dst := "n0",
    body := { id := some 7, inReplyTo := none, payload := .poll [("k1", 0)] } }

def demoCommit : KMsg :=
  { src := "c1", dst := "n0",
    body := { id := some 8, inReplyTo := none,
              payload := .commitOffsets [("k1", 0)] } }

def demoErrReply : KMsg := kvReply "n0" (.error 13 "temporarily unavailable")

end MultiKafka

/-! ## Counter on seq-kv (src/bin/counter.rs)

Unlike the multi-kafka client, the counter's `SeqKv` methods perform a
single blocking receive with no stash loop and no timeout
(src/bin/counter.rs:28-31, 53-56, 81-84). -/

namespace Counter

/-- The counter `Payload` enum (src/bin/counter.rs:200-233). -/
inductive CPayload where
  | add (delta : Nat)
  | addOk
  | read
  | readOk (value : Nat)
  | kvRead (key : String)
  | write (key : String) (value : Nat)
  | writeOk
  | cas (key : String) (fromVal : Nat) (toVal : Nat)
      (create_if_not_exists : Bool)
  | casOk
  | error (code : Nat) (text : String)
  deriving DecidableEq

abbrev CMsg := Message CPayload

/-- The context a counter RPC threads: msg-id counter, `in_reply_to`,
remaining queue, outbound messages. -/
structure CCtx where
  id : Nat
  node_id : String
  in_reply_to : Option Nat
  queue : List CMsg
  sent : List CMsg
  deriving DecidableEq

/-- `SeqKv::read` (src/bin/counter.rs:21-41): send `read`, receive ONE
event; `in_reply_to` is updated before the match, for every arm. -/
def seqRead (c : CCtx) (key : String) : Except Err Nat × CCtx :=
  let req := kv_message c.node_id "seq-kv" c.id c.in_reply_to
    (CPayload.kvRead key)
  let c1 := { c with id := c.id + 1, sent := c.sent ++ [req] }
  match c1.queue with
  | [] => (.error .blocked, c1)
  | input :: rest =>
    let c2 := { c1 with in_reply_to := input.body.id, queue := rest }
    match input.body.payload with
    | .readOk v => (.ok v, c2)
    | .error code text => (.error (.rpc code text), c2)
    | _ => (.error (.normal "should not be other payload"), c2)

/-- `SeqKv::write` (src/bin/counter.rs:43-62). -/
def seqWrite (c : CCtx) (key : String) (value : Nat) : Except Err Unit × CCtx :=
  let req := kv_message c.node_id "seq-kv" c.id c.in_reply_to
    (CPayload.write key value)
  let c1 := { c with id := c.id + 1, sent := c.sent ++ [req] }
  match c1.queue with
  | [] => (.error .blocked, c1)
  | input :: rest =>
    let c2 := { c1 with in_reply_to := input.body.id, queue := rest }
    match input.body.payload with
    | .writeOk => (.ok (), c2)
    | .error code text => (.error (.rpc code text), c2)
    | _ => (.error (.normal "should not be other payload"), c2)

/-- `SeqKv::compare_exchange` (src/bin/counter.rs:64-96): code 22 maps to
the typed precondition-failed error; every other code propagates as an
RPC error. -/
def seqCas (c : CCtx) (key : String) (fromVal toVal : Nat)
    (create_if_not_exists : Bool) : Except Err Unit × CCtx :=
  let req := kv_message c.node_id "seq-kv" c.id c.in_reply_to
    (CPayload.cas key fromVal toVal create_if_not_exists)
  let c1 := { c with id := c.id + 1, sent := c.sent ++ [req] }
  match c1.queue with
  | [] => (.error .blocked, c1)
  | input :: rest =>
    let c2 := { c1 with in_reply_to := input.body.id, queue := rest }
    match input.body.payload with
    | .casOk => (.ok (), c2)
    | .error 22 _ => (.error .preconditionFailed, c2)
    | .error code text => (.error (.rpc code text), c2)
    | _ => (.error (.normal "should not be other payload"), c2)

/-- `read_inner` (src/bin/counter.rs:185-198): read the `"Counter"` key;
on RPC error code 20 (key does not exist) write 0 to initialize it and
return 0; propagate other errors. -/
def read_inner (c : CCtx) : Except Err Nat × CCtx :=
  match seqRead c "Counter" with
  | (.ok g, c1) => (.ok g, c1)
  | (.error (.rpc 20 _), c1) =>
    match seqWrite c1 "Counter" 0 with
    | (.ok _, c2) => (.ok 0, c2)
    | (.error e, c2) => (.error e, c2)
  | (.error e, c1) => (.error e, c1)

/-- The retry loop of `add_delta` (src/bin/counter.rs:166-174): read,
CAS from `old` to `old + delta` (wrapping at 2^64 in a release build)
with `create_if_not_exists = true`; on precondition-failed loop again
from a fresh read; propagate other errors.  Fuelled: every iteration
consumes at least two queue elements, so any fuel above the queue length
behaves identically; fuel 0 models spinning forever. -/
def addDeltaGo : Nat → CCtx → Nat → Except Err Unit × CCtx
  | 0, c, _ => (.error .blocked, c)
  | fuel + 1, c, delta =>
    match read_inner c with
    | (.error e, c1) => (.error e, c1)
    | (.ok old, c1) =>
      match seqCas c1 "Counter" old ((old + delta) % 2 ^ 64) true with
      | (.ok _, c2) => (.ok (), c2)
      | (.error .preconditionFailed, c2) => addDeltaGo fuel c2 delta
      | (.error e, c2) => (.error e, c2)

/-- `add_delta` (src/bin/counter.rs:161-175): `delta == 0` returns at
once, before any KV traffic. -/
def add_delta (c : CCtx) (delta : Nat) : Except Err Unit × CCtx :=
  if delta = 0 then (.ok (), c) else addDeltaGo (c.queue.length + 1) c delta

/-- `read` (src/bin/counter.rs:177-183): write a random value to the
`"sync"` key to force the sequentially consistent store to serve a fresh
read, then `read_inner`.  The random payload is the `rnd` parameter. -/
def counterRead (c : CCtx) (rnd : Nat) : Except Err Nat × CCtx :=
  match seqWrite c "sync" rnd with
  | (.error e, c1) => (.error e, c1)
  | (.ok _, c1) => read_inner c1

/-- Result of one `CounterNode::step`. -/
inductive CStepResult where
  | ok (id : Nat) (queue : List CMsg) (out : List CMsg)
  | fail (e : Err) (out : List CMsg)
  | panic
  deriving DecidableEq

/-- `CounterNode::step` (src/bin/counter.rs:115-158): `Add` runs
`add_delta` then replies `add_ok`; `Read` syncs and replies the value;
response payloads are rejected; non-message events panic.  `into_reply`
runs AFTER the KV traffic here, so the reply's msg_id follows the
request ids. -/
def counterStep (node_id : String) (id : Nat) (ev : Event CPayload)
    (queue : List CMsg) (rnd : Nat) : CStepResult :=
  match ev with
  | .injected => .panic
  | .eof => .panic
  | .message input =>
    let c0 : CCtx :=
      { id := id, node_id := node_id, in_reply_to := none,
        queue := queue, sent := [] }
    match input.body.payload with
    | .add delta =>
      match add_delta c0 delta with
      | (.error e, c) => .fail e c.sent
      | (.ok _, c) =>
        let (reply, id1) := input.into_reply c.id
        .ok id1 c.queue
          (c.sent ++ [{ reply with
            body := { reply.body with payload := .addOk } }])
    | .read =>
      match counterRead c0 rnd with
      | (.error e, c) => .fail e c.sent
      | (.ok value, c) =>
        let (reply, id1) := input.into_reply c.id
        .ok id1 c.queue
          (c.sent ++ [{ reply with
            body := { reply.body with payload := .readOk value } }])
    | _ => .fail (.normal "we should never receive generate_ok") []

/-- Canonical inbound reply from the seq-kv service for theorem
statements. -/
def seqReply (node_id : String) (p : CPayload) : CMsg :=
  { src := "seq-kv", dst := node_id,
    body := { id := none, inReplyTo := none, payload := p } }

end Counter

/-! ## Lemmas: decimal printing round-trips through Rust u64 parsing -/

theorem parseDigitsAcc_append (l1 l2 : List Char) (acc : Nat) :
    parseDigitsAcc (l1 ++ l2) acc =
      match parseDigitsAcc l1 acc with
      | some m => parseDigitsAcc l2 m
      | none => none := by
  induction l1 generalizing acc with
  | nil => simp [parseDigitsAcc]
  | cons c cs ih =>
    simp only [List.cons_append, parseDigitsAcc]
    by_cases h : c.isDigit
    · simp [h, ih]
    · simp [h]

theorem digitChar_isDigit {d : Nat} (h : d < 10) :
    (Nat.digitChar d).isDigit = true := by
  interval_cases d <;> decide

theorem digitChar_toNat {d : Nat} (h : d < 10) :
    (Nat.digitChar d).toNat - 48 = d := by
  interval_cases d <;> decide

theorem natDigitsAux_parse (fuel : Nat) :
    ∀ n acc, n < fuel →
      parseDigitsAcc (natDigitsAux fuel n) acc =
        some (acc * 10 ^ (natDigitsAux fuel n).length + n) := by
  induction fuel with
  | zero => intro n acc h; omega
  | succ f ih =>
    intro n acc h
    by_cases h10 : n < 10
    · simp only [natDigitsAux, if_pos h10, parseDigitsAcc,
        digitChar_isDigit h10, if_pos, digitChar_toNat h10, List.length_singleton]
      ring_nf
    · have hdiv : n / 10 < f := by
        have h1 : n / 10 < n := Nat.div_lt_self (by omega) (by omega)
        omega
      simp only [natDigitsAux, if_neg h10]
      rw [parseDigitsAcc_append, ih (n / 10) acc hdiv]
      have hm : n % 10 < 10 := Nat.mod_lt _ (by omega)
      simp only [parseDigitsAcc, digitChar_isDigit hm, if_pos, digitChar_toNat hm,
        List.length_append, List.length_singleton]
      have heq : acc * 10 ^ ((natDigitsAux f (n / 10)).length + 1) + n
          = (acc * 10 ^ (natDigitsAux f (n / 10)).length + n / 10) * 10 + n % 10 := by
        have := Nat.div_add_mod n 10
        ring_nf
        omega
      rw [heq]

theorem natDigitsAux_all_digits (fuel : Nat) :
    ∀ n, n < fuel → ∀ c ∈ natDigitsAux fuel n, c.isDigit = true := by
  induction fuel with
  | zero => intro n h; omega
  | succ f ih =>
    intro n h c hc
    by_cases h10 : n < 10
    · simp only [natDigitsAux, if_pos h10, List.mem_singleton] at hc
      subst hc; exact digitChar_isDigit h10
    · have hdiv : n / 10 < f := by
        have h1 : n / 10 < n := Nat.div_lt_self (by omega) (by omega)
        omega
      simp only [natDigitsAux, if_neg h10, List.mem_append, List.mem_singleton] at hc
      rcases hc with hc | hc
      · exact ih (n / 10) hdiv c hc
      · subst hc; exact digitChar_isDigit (Nat.mod_lt _ (by omega))

theorem natDigitsAux_ne_nil (fuel n : Nat) (h : n < fuel) :
    natDigitsAux fuel n ≠ [] := by
  cases fuel with
  | zero => omega
  | succ f =>
    by_cases h10 : n < 10 <;> simp [natDigitsAux, h10]

/-- Printing a u64 with `to_string` and parsing it back with
`str::parse::<u64>` is the identity. -/
theorem rustParseU64_natToString {n : Nat} (h : n < 2 ^ 64) :
    rustParseU64 (natToString n) = some n := by
  have hfuel : n < n + 1 := Nat.lt_succ_self n
  have hne := natDigitsAux_ne_nil (n + 1) n hfuel
  have hdigits := natDigitsAux_all_digits (n + 1) n hfuel
  unfold rustParseU64 natToString
  rcases hl : natDigitsAux (n + 1) n with _ | ⟨c, cs⟩
  · exact absurd hl hne
  · have hcd : c.isDigit = true := hdigits c (by rw [hl]; exact List.mem_cons_self _ _)
    have hcp : c ≠ '+' := by
      intro hc; rw [hc] at hcd; exact absurd hcd (by decide)
    have hparse := natDigitsAux_parse (n + 1) n 0 hfuel
    rw [hl] at hparse
    simp only [Nat.zero_mul, Nat.zero_add] at hparse
    have hnp : ¬ ((c :: cs).head? = some '+') := by simp [hcp]
    simp only [String.data]
    rw [if_neg hnp]
    simp only [hparse]
    rw [if_pos h]

/-! ## Lemmas: association lists -/

theorem alGet_alPut_self {α : Type} (l : List (String × α)) (k : String) (v : α) :
    alGet (alPut l k v) k = some v := by
  induction l with
  | nil => simp [alGet, alPut]
  | cons p t ih =>
    obtain ⟨a, b⟩ := p
    by_cases h : a = k
    · simp [alGet, alPut, h]
    · simp [alGet, alPut, h, ih]

theorem alGet_mem {α : Type} (l : List (String × α)) (k : String) (v : α)
    (h : alGet l k = some v) : (k, v) ∈ l := by
  induction l with
  | nil => simp [alGet] at h
  | cons p t ih =>
    obtain ⟨a, b⟩ := p
    by_cases hak : a = k
    · subst hak
      simp [alGet] at h
      simp [h]
    · simp [alGet, hak] at h
      exact List.mem_cons_of_mem _ (ih h)

theorem mem_alPut {α : Type} (l : List (String × α)) (k : String) (v : α)
    (p : String) (b : α) (h : (p, b) ∈ alPut l k v) :
    (p, b) ∈ l ∨ (p = k ∧ b = v) := by
  induction l with
  | nil =>
    simp [alPut] at h
    exact Or.inr h
  | cons q t ih =>
    obtain ⟨a, c⟩ := q
    by_cases hak : a = k
    · subst hak
      simp [alPut] at h
      rcases h with ⟨h1, h2⟩ | h
      · exact Or.inr ⟨h1, h2⟩
      · exact Or.inl (List.mem_cons_of_mem _ h)
    · simp [alPut, hak] at h
      rcases h with ⟨h1, h2⟩ | h
      · subst h1; subst h2; exact Or.inl (List.mem_cons_self _ _)
      · rcases ih h with h | h
        · exact Or.inl (List.mem_cons_of_mem _ h)
        · exact Or.inr h

/-! ## Lemmas: broadcast step and run preservation -/

namespace Broadcast

/-- One step preserves the message set, the known-subset invariant, and
records a delivered broadcast value. -/
theorem brd_step_pres (s s' : BState) (ev : BEvent) (out : List BMsg)
    (h : step s ev = some (s', out)) :
    s.messages ⊆ s'.messages ∧
    (KnownSub s → KnownSub s') ∧
    (∀ m q v, ev = .message m q → m.body.payload = .broadcast v →
      v ∈ s'.messages) := by
  cases ev with
  | eof =>
    simp only [step, Option.some_inj, Prod.mk.injEq] at h
    obtain ⟨h1, h2⟩ := h
    subst h1
    exact ⟨Finset.Subset.refl _, fun hk => hk, fun m q v hev => by cases hev⟩
  | injectedGossip gsel =>
    simp only [step] at h
    rcases hg : gossipMsgs s gsel s.neighborhood with _ | msgs <;> rw [hg] at h
    · cases h
    · simp only [Option.some_inj, Prod.mk.injEq] at h
      obtain ⟨h1, h2⟩ := h
      subst h1
      exact ⟨Finset.Subset.refl _, fun hk => hk, fun m q v hev => by cases hev⟩
  | message input sel =>
    simp only [step, Message.into_reply] at h
    cases hp : input.body.payload with
    | broadcast v0 =>
      rw [hp] at h
      simp only [Option.some_inj, Prod.mk.injEq] at h
      obtain ⟨h1, h2⟩ := h
      subst h1
      refine ⟨Finset.subset_insert _ _, fun hk p ks hm => ?_, ?_⟩
      · exact Finset.Subset.trans (hk p ks hm) (Finset.subset_insert _ _)
      · intro m q v hev hbv
        cases hev
        rw [hp] at hbv
        cases hbv
        exact Finset.mem_insert_self _ _
    | read =>
      rw [hp] at h
      simp only [Option.some_inj, Prod.mk.injEq] at h
      obtain ⟨h1, h2⟩ := h
      subst h1
      refine ⟨Finset.Subset.refl _, fun hk => hk, ?_⟩
      intro m q v hev hbv
      cases hev
      rw [hp] at hbv
      cases hbv
    | topology t =>
      rw [hp] at h
      simp only at h
      rcases hn : newNeighborhood t s.node_id sel with _ | nbr <;> rw [hn] at h
      · cases h
      · simp only [Option.some_inj, Prod.mk.injEq] at h
        obtain ⟨h1, h2⟩ := h
        subst h1
        refine ⟨Finset.Subset.refl _, fun hk => hk, ?_⟩
        intro m q v hev hbv
        cases hev
        rw [hp] at hbv
        cases hbv
    | gossip seen =>
      rw [hp] at h
      simp only at h
      rcases hkg : alGet s.known input.src with _ | ks <;> rw [hkg] at h
      · cases h
      · simp only [Option.some_inj, Prod.mk.injEq] at h
        obtain ⟨h1, h2⟩ := h
        subst h1
        refine ⟨Finset.subset_union_left, fun hk p ks' hm => ?_, ?_⟩
        · rcases mem_alPut _ _ _ _ _ hm with hmem | ⟨hpk, hksv⟩
          · exact Finset.Subset.trans (hk p ks' hmem) Finset.subset_union_left
          · subst hksv
            exact Finset.union_subset_union (hk _ _ (alGet_mem _ _ _ hkg))
              (Finset.Subset.refl _)
        · intro m q v hev hbv
          cases hev
          rw [hp] at hbv
          cases hbv
    | broadcastOk =>
      rw [hp] at h
      simp only [Option.some_inj, Prod.mk.injEq] at h
      obtain ⟨h1, h2⟩ := h
      subst h1
      exact ⟨Finset.Subset.refl _, fun hk => hk,
        fun m q v hev hbv => by cases hev; rw [hp] at hbv; cases hbv⟩
    | topologyOk =>
      rw [hp] at h
      simp only [Option.some_inj, Prod.mk.injEq] at h
      obtain ⟨h1, h2⟩ := h
      subst h1
      exact ⟨Finset.Subset.refl _, fun hk => hk,
        fun m q v hev hbv => by cases hev; rw [hp] at hbv; cases hbv⟩
    | readOk ms =>
      rw [hp] at h
      simp only [Option.some_inj, Prod.mk.injEq] at h
      obtain ⟨h1, h2⟩ := h
      subst h1
      exact ⟨Finset.Subset.refl _, fun hk => hk,
        fun m q v hev hbv => by cases hev; rw [hp] at hbv; cases hbv⟩
    | gossipOk =>
      rw [hp] at h
      simp only [Option.some_inj, Prod.mk.injEq] at h
      obtain ⟨h1, h2⟩ := h
      subst h1
      exact ⟨Finset.Subset.refl _, fun hk => hk,
        fun m q v hev hbv => by cases hev; rw [hp] at hbv; cases hbv⟩

/-- A whole run preserves the invariant and keeps every delivered
broadcast value in the message set. -/
theorem brd_run_pres (evs : List BEvent) :
    ∀ (s0 s : BState) (out : List BMsg), run s0 evs = some (s, out) →
      s0.messages ⊆ s.messages ∧
      (KnownSub s0 → KnownSub s) ∧
      (∀ v ∈ deliveredValues evs, v ∈ s.messages) := by
  induction evs with
  | nil =>
    intro s0 s out h
    simp only [run, Option.some_inj, Prod.mk.injEq] at h
    obtain ⟨h1, h2⟩ := h
    subst h1
    exact ⟨Finset.Subset.refl _, fun hk => hk, by simp [deliveredValues]⟩
  | cons ev rest ih =>
    intro s0 s out h
    simp only [run] at h
    rcases h1 : step s0 ev with _ | ⟨s1, o1⟩ <;> rw [h1] at h
    · cases h
    · simp only at h
      rcases h2 : run s1 rest with _ | ⟨s2, o2⟩ <;> rw [h2] at h
      · cases h
      · simp only [Option.some_inj, Prod.mk.injEq] at h
        obtain ⟨hs, ho⟩ := h
        subst hs
        obtain ⟨m1, k1, b1⟩ := brd_step_pres _ _ _ _ h1
        obtain ⟨m2, k2, d2⟩ := ih s1 _ _ h2
        refine ⟨Finset.Subset.trans m1 m2, fun hk => k2 (k1 hk), ?_⟩
        intro v hv
        cases ev with
        | message m q =>
          simp only [deliveredValues, List.filterMap_cons] at hv
          cases hpv : m.body.payload <;> rw [hpv] at hv <;>
            simp only at hv
          case broadcast v0 =>
            rcases List.mem_cons.mp hv with h | h
            · subst h
              exact m2 (b1 m q v rfl hpv)
            · exact d2 v h
          all_goals exact d2 v hv
        | injectedGossip g =>
          simp only [deliveredValues, List.filterMap_cons] at hv
          exact d2 v hv
        | eof =>
          simp only [deliveredValues, List.filterMap_cons] at hv
          exact d2 v hv

/-- Every message a gossip fan-out produces carries no msg_id and a
gossip payload. -/
theorem gossipMsgs_id_none (s : BState) (g : Nat → Bool) :
    ∀ (nbrs : List String) (msgs : List BMsg),
      gossipMsgs s g nbrs = some msgs →
      ∀ m ∈ msgs, m.body.id = none ∧ isGossipB m.body.payload = true := by
  intro nbrs
  induction nbrs with
  | nil =>
    intro msgs h m hm
    simp only [gossipMsgs, Option.some_inj] at h
    subst h
    cases hm
  | cons n ns ih =>
    intro msgs h m hm
    simp only [gossipMsgs] at h
    rcases hk : alGet s.known n with _ | ks <;> rw [hk] at h
    · cases h
    · simp only at h
      rcases hg : gossipMsgs s g ns with _ | rest <;> rw [hg] at h
      · cases h
      · simp only [Option.some_inj] at h
        subst h
        rcases List.mem_cons.mp hm with h | h
        · subst h
          exact ⟨rfl, rfl⟩
        · exact ih rest hg m h

/-- The msg_ids one step emits: none, or exactly the pre-step counter
(with the counter advancing by one); gossip fan-out messages carry no
msg_id. -/
theorem brd_step_ids (s s' : BState) (ev : BEvent) (out : List BMsg)
    (h : step s ev = some (s', out)) :
    s.id ≤ s'.id ∧
    ((out.filterMap fun m => m.body.id) = [] ∨
      ((out.filterMap fun m => m.body.id) = [s.id] ∧ s'.id = s.id + 1)) ∧
    (∀ m ∈ out, isGossipB m.body.payload = true → m.body.id = none) := by
  cases ev with
  | eof =>
    simp only [step, Option.some_inj, Prod.mk.injEq] at h
    obtain ⟨h1, h2⟩ := h
    subst h1
    subst h2
    exact ⟨Nat.le_refl _, Or.inl rfl, by intro m hm; cases hm⟩
  | injectedGossip gsel =>
    simp only [step] at h
    rcases hg : gossipMsgs s gsel s.neighborhood with _ | msgs <;> rw [hg] at h
    · cases h
    · simp only [Option.some_inj, Prod.mk.injEq] at h
      obtain ⟨h1, h2⟩ := h
      subst h1
      subst h2
      have hids := gossipMsgs_id_none s gsel s.neighborhood _ hg
      refine ⟨Nat.le_refl _, Or.inl ?_, fun m hm _ => (hids m hm).1⟩
      rw [List.filterMap_eq_nil_iff]
      exact fun m hm => (hids m hm).1
  | message input sel =>
    simp only [step, Message.into_reply] at h
    cases hp : input.body.payload <;> rw [hp] at h <;> simp only at h
    case topology t =>
      rcases hn : newNeighborhood t s.node_id sel with _ | nbr <;> rw [hn] at h
      · cases h
      · simp only [Option.some_inj, Prod.mk.injEq] at h
        obtain ⟨h1, h2⟩ := h
        subst h1
        subst h2
        exact ⟨Nat.le_succ _, Or.inr ⟨rfl, rfl⟩, by
          intro m hm hg
          rcases List.mem_singleton.mp hm with rfl
          cases hg⟩
    case gossip seen =>
      rcases hkg : alGet s.known input.src with _ | ks <;> rw [hkg] at h
      · cases h
      · simp only [Option.some_inj, Prod.mk.injEq] at h
        obtain ⟨h1, h2⟩ := h
        subst h1
        subst h2
        exact ⟨Nat.le_succ _, Or.inl rfl, by intro m hm; cases hm⟩
    all_goals
      simp only [Option.some_inj, Prod.mk.injEq] at h
    case broadcast v0 =>
      obtain ⟨h1, h2⟩ := h
      subst h1
      subst h2
      exact ⟨Nat.le_succ _, Or.inr ⟨rfl, rfl⟩, by
        intro m hm hg
        rcases List.mem_singleton.mp hm with rfl
        cases hg⟩
    case read =>
      obtain ⟨h1, h2⟩ := h
      subst h1
      subst h2
      exact ⟨Nat.le_succ _, Or.inr ⟨rfl, rfl⟩, by
        intro m hm hg
        rcases List.mem_singleton.mp hm with rfl
        cases hg⟩
    case broadcastOk =>
      obtain ⟨h1, h2⟩ := h
      subst h1
      subst h2
      exact ⟨Nat.le_succ _, Or.inl rfl, by intro m hm; cases hm⟩
    case topologyOk =>
      obtain ⟨h1, h2⟩ := h
      subst h1
      subst h2
      exact ⟨Nat.le_succ _, Or.inl rfl, by intro m hm; cases hm⟩
    case readOk ms =>
      obtain ⟨h1, h2⟩ := h
      subst h1
      subst h2
      exact ⟨Nat.le_succ _, Or.inl rfl, by intro m hm; cases hm⟩
    case gossipOk =>
      obtain ⟨h1, h2⟩ := h
      subst h1
      subst h2
      exact ⟨Nat.le_succ _, Or.inl rfl, by intro m hm; cases hm⟩

/-- The msg_ids a whole run emits are strictly increasing and lie in
`[s0.id, s.id)`; gossip messages carry none. -/
theorem brd_run_ids (evs : List BEvent) :
    ∀ (s0 s : BState) (out : List BMsg), run s0 evs = some (s, out) →
      s0.id ≤ s.id ∧
      List.Chain' (· < ·) (out.filterMap fun m => m.body.id) ∧
      (∀ j ∈ out.filterMap fun m => m.body.id, s0.id ≤ j ∧ j < s.id) ∧
      (∀ m ∈ out, isGossipB m.body.payload = true → m.body.id = none) := by
  induction evs with
  | nil =>
    intro s0 s out h
    simp only [run, Option.some_inj, Prod.mk.injEq] at h
    obtain ⟨h1, h2⟩ := h
    subst h1
    subst h2
    exact ⟨Nat.le_refl _, List.chain'_nil, by simp, by intro m hm; cases hm⟩
  | cons ev rest ih =>
    intro s0 s out h
    simp only [run] at h
    rcases h1 : step s0 ev with _ | ⟨s1, o1⟩ <;> rw [h1] at h
    · cases h
    · simp only at h
      rcases h2 : run s1 rest with _ | ⟨s2, o2⟩ <;> rw [h2] at h
      · cases h
      · simp only [Option.some_inj, Prod.mk.injEq] at h
        obtain ⟨hs, ho⟩ := h
        subst hs
        subst ho
        obtain ⟨le1, ids1, g1⟩ := brd_step_ids _ _ _ _ h1
        obtain ⟨le2, ch2, bd2, g2⟩ := ih s1 _ _ h2
        have hfm : ((o1 ++ o2).filterMap fun m => m.body.id) =
            (o1.filterMap fun m => m.body.id) ++
            (o2.filterMap fun m => m.body.id) := by
          rw [List.filterMap_append]
        refine ⟨Nat.le_trans le1 le2, ?_, ?_, ?_⟩
        · rw [hfm]
          rcases ids1 with h1' | ⟨h1', hid⟩
          · rw [h1']
            simpa using ch2
          · rw [h1']
            rw [List.singleton_append]
            rw [List.chain'_cons']
            refine ⟨?_, ch2⟩
            intro y hy
            have hmem := List.mem_of_mem_head? hy
            have := (bd2 y hmem).1
            omega
        · rw [hfm]
          intro j hj
          rcases List.mem_append.mp hj with hj | hj
          · rcases ids1 with h1' | ⟨h1', hid⟩
            · rw [h1'] at hj; cases hj
            · rw [h1'] at hj
              rcases List.mem_singleton.mp hj with rfl
              constructor
              · exact Nat.le_refl _
              · omega
          · have := bd2 j hj
            exact ⟨Nat.le_trans le1 this.1, this.2⟩
        · intro m hm
          rcases List.mem_append.mp hm with hm | hm
          · exact g1 m hm
          · exact g2 m hm

end Broadcast

/-! ## Lemmas: the outbound messages of a `LinKv::send` -/

namespace MultiKafka

theorem readLoop_sent (fuel : Nat) :
    ∀ c, ((LinKv.readLoop fuel c).2).sent = c.sent := by
  induction fuel with
  | zero => intro c; rfl
  | succ f ih =>
    intro c
    unfold LinKv.readLoop
    split
    · rfl
    · split <;> first | rfl | apply ih

theorem writeLoop_sent (fuel : Nat) :
    ∀ c, ((LinKv.writeLoop fuel c).2).sent = c.sent := by
  induction fuel with
  | zero => intro c; rfl
  | succ f ih =>
    intro c
    unfold LinKv.writeLoop
    split
    · rfl
    · split <;> first | rfl | apply ih

theorem read_sent (c : Ctx) (k : String) :
    ((LinKv.read c k).2).sent =
      c.sent ++ [kv_message c.node_id "lin-kv" c.id c.in_reply_to (.kvRead k)] := by
  unfold LinKv.read
  rw [readLoop_sent]

theorem write_sent (c : Ctx) (k v : String) :
    ((LinKv.write c k v).2).sent =
      c.sent ++ [kv_message c.node_id "lin-kv" c.id c.in_reply_to (.write k v)] := by
  unfold LinKv.write
  rw [writeLoop_sent]

theorem read_sent_step (a b : Ctx) (k : String) (r : Except Err String)
    (heq : LinKv.read a k = (r, b)) :
    b.sent = a.sent ++
      [kv_message a.node_id "lin-kv" a.id a.in_reply_to (.kvRead k)] := by
  have h := read_sent a k
  rw [heq] at h
  exact h

theorem write_sent_step (a b : Ctx) (k v : String) (r : Except Err Unit)
    (heq : LinKv.write a k v = (r, b)) :
    b.sent = a.sent ++
      [kv_message a.node_id "lin-kv" a.id a.in_reply_to (.write k v)] := by
  have h := write_sent a k v
  rw [heq] at h
  exact h

/-- Every message a `LinKv::send` writes is either inherited from the
context or a plain KV request — never a `forward_send`. -/
theorem send_sent_no_forward (c : Ctx) (key : String) (value : Nat) :
    ∀ x ∈ ((LinKv.send c key value).2).sent,
      x ∈ c.sent ∨ isForwardSendP x.body.payload = false := by
  simp only [LinKv.send]
  split
  · next e c1 heq =>
    have h1 := read_sent_step _ _ _ _ heq
    intro x hx
    simp only at hx
    rw [h1] at hx
    rcases List.mem_append.mp hx with h | h
    · exact Or.inl h
    · simp only [List.mem_singleton] at h; subst h; exact Or.inr rfl
  · next s0 c1 heq =>
    have h1 := read_sent_step _ _ _ _ heq
    split
    · next e c2 heq2 =>
      have h2 := write_sent_step _ _ _ _ _ heq2
      intro x hx
      simp only at hx
      rw [h2, h1] at hx
      rcases List.mem_append.mp hx with h | h
      · rcases List.mem_append.mp h with h | h
        · exact Or.inl h
        · simp only [List.mem_singleton] at h; subst h; exact Or.inr rfl
      · simp only [List.mem_singleton] at h; subst h; exact Or.inr rfl
    · next u c2 heq2 =>
      have h2 := write_sent_step _ _ _ _ _ heq2
      split
      · next e c3 heq3 =>
        have h3 := read_sent_step _ _ _ _ heq3
        intro x hx
        simp only at hx
        rw [h3, h2, h1] at hx
        rcases List.mem_append.mp hx with h | h
        · rcases List.mem_append.mp h with h | h
          · rcases List.mem_append.mp h with h | h
            · exact Or.inl h
            · simp only [List.mem_singleton] at h; subst h; exact Or.inr rfl
          · simp only [List.mem_singleton] at h; subst h; exact Or.inr rfl
        · simp only [List.mem_singleton] at h; subst h; exact Or.inr rfl
      · next entries c3 heq3 =>
        have h3 := read_sent_step _ _ _ _ heq3
        split <;> next uu c4 heq4 =>
          have h4 := write_sent_step _ _ _ _ _ heq4
          intro x hx
          simp only at hx
          rw [h4, h3, h2, h1] at hx
          rcases List.mem_append.mp hx with h | h
          · rcases List.mem_append.mp h with h | h
            · rcases List.mem_append.mp h with h | h
              · rcases List.mem_append.mp h with h | h
                · exact Or.inl h
                · simp only [List.mem_singleton] at h; subst h; exact Or.inr rfl
              · simp only [List.mem_singleton] at h; subst h; exact Or.inr rfl
            · simp only [List.mem_singleton] at h; subst h; exact Or.inr rfl
          · simp only [List.mem_singleton] at h; subst h; exact Or.inr rfl

end MultiKafka

/-! ## Claims -/

/-- C1, counterexample.  The claim states that a multi-node Kafka send
allocates its offset with a read / local increment / compare-and-swap
loop retried on precondition-failed (code 22).  On a fresh store the
send issues NO cas request at all (first two conjuncts refute the CAS
part at the concrete input `freshCtx`, key "k1", msg 100), and when a
code-22 error does arrive during allocation the send aborts with an RPC
error instead of retrying (third conjunct). -/
theorem c1_cas_allocation_refuted :
    MultiKafka.allocatesByCas
      (MultiKafka.LinKv.send MultiKafka.freshCtx "k1" 100).2.sent "k1" = false ∧
    (MultiKafka.LinKv.send MultiKafka.freshCtx "k1" 100).2.sent.filter
      (fun m => MultiKafka.isCasReq m.body.payload) = [] ∧
    (MultiKafka.LinKv.send MultiKafka.casRetryCtx "k1" 5).1 =
      .error (.rpc 22 "precondition failed") :=
  ⟨rfl, rfl, rfl⟩

/-- C1, amended: offset allocation in `LinKv::send` reads `latest_<k>`,
locally computes `parse + 1` (or 0 when the key is absent or
unparsable), and installs the new value with a PLAIN unconditional
write — no compare-and-swap, no retry; the returned offset is the
locally computed value, which is also appended to the segment record.
The equation exhibits the entire outbound traffic of a send whose four
service replies arrive in order: exactly one read and one write per
key, and nothing else. -/
theorem c1_send_allocates_by_plain_write (i : Nat) (nid : String)
    (irt : Option Nat) (sh outp rest : List Rustengan.MultiKafka.KMsg)
    (s0 e : String) (key : String) (value : Nat) :
    MultiKafka.LinKv.send
      { id := i, node_id := nid, in_reply_to := irt, stash_event := sh,
        queue := MultiKafka.kvReply nid (.readOk s0) ::
          MultiKafka.kvReply nid .writeOk ::
          MultiKafka.kvReply nid (.readOk e) ::
          MultiKafka.kvReply nid .writeOk :: rest,
        sent := outp } key value =
      (let offset := match rustParseU64 s0 with
        | some x => (x + 1) % 2 ^ 64
        | none => 0
      (.ok offset,
        { id := i + 4, node_id := nid, in_reply_to := none, stash_event := sh,
          queue := rest,
          sent := outp ++
            [kv_message nid "lin-kv" i irt (.kvRead ("latest_" ++ key)),
             kv_message nid "lin-kv" (i + 1) none
               (.write ("latest_" ++ key) (natToString offset)),
             kv_message nid "lin-kv" (i + 2) none
               (.kvRead (MultiKafka.LinKv.new_key key offset)),
             kv_message nid "lin-kv" (i + 3) none
               (.write (MultiKafka.LinKv.new_key key offset)
                 (MultiKafka.LinKv.entriesAppend e offset value))] })) := by
  cases h : rustParseU64 s0 <;>
    simp only [MultiKafka.LinKv.send, MultiKafka.LinKv.read,
      MultiKafka.LinKv.write, MultiKafka.LinKv.readLoop,
      MultiKafka.LinKv.writeLoop, MultiKafka.kvReply, kv_message, h,
      List.length_cons, List.append_assoc, List.cons_append, List.nil_append]

/-- C2, counterexample.  The claim states that a step ending in an RPC
error logs and lets the loop continue.  In the concrete run below the
poll's KV read gets an error-13 reply, `step` returns the error, and
`main_loop` stops with `.failed` — the queued commit_offsets event after
it is never processed (the loop result is `.failed`, not `.drained`). -/
theorem c2_failed_step_ends_loop :
    MultiKafka.main_loop_go "n0" ["n0"] 10 MultiKafka.freshState
      [MultiKafka.demoPoll, MultiKafka.demoErrReply, MultiKafka.demoCommit] [] =
      .failed (.rpc 13 "temporarily unavailable")
        [kv_message "n0" "lin-kv" 2 none (.kvRead "entry_k1_0-20")] ∧
    (match MultiKafka.main_loop_go "n0" ["n0"] 10 MultiKafka.freshState
      [MultiKafka.demoPoll, MultiKafka.demoErrReply, MultiKafka.demoCommit] [] with
     | .failed _ _ => true
     | _ => false) = true :=
  ⟨by rfl, by rfl⟩

/-- C2, amended: an inbound `error` PAYLOAD delivered as the step's own
event is logged and consumed with `Ok(())`, and the loop moves on to the
next queued event (first two conjuncts); but a KV error that propagates
out of a handler makes `step` return `Err`, and the `?` in `main_loop`
then ends the loop — a single failed step does tear down the node
(third conjunct). -/
theorem c2_rpc_error_handling (nid : String) (nids : List String)
    (st : Rustengan.MultiKafka.NodeState)
    (queue q out o : List Rustengan.MultiKafka.KMsg) (src dst : String)
    (mid irt : Option Nat) (code : Nat) (t : String) (fuel : Nat)
    (e : Rustengan.MultiKafka.KMsg) (err : Err)
    (h : MultiKafka.step nid nids st (.message e) q = .fail err o) :
    MultiKafka.step nid nids st
      (.message { src := src, dst := dst,
                  body := { id := mid, inReplyTo := irt,
                            payload := .error code t } }) queue =
      .ok { id := st.id + 1, stash_event := st.stash_event } queue [] ∧
    MultiKafka.main_loop_go nid nids (fuel + 1) st
      ({ src := src, dst := dst,
         body := { id := mid, inReplyTo := irt,
                   payload := .error code t } } :: q) out =
      MultiKafka.main_loop_go nid nids fuel
        { id := st.id + 1, stash_event := st.stash_event } q out ∧
    MultiKafka.main_loop_go nid nids (fuel + 1) st (e :: q) out =
      .failed err (out ++ o) := by
  refine ⟨rfl, ?_, ?_⟩
  · simp only [MultiKafka.main_loop_go, MultiKafka.step, List.append_nil]
  · unfold MultiKafka.main_loop_go
    rw [h]

/-- C2 witness: the concrete failing poll discharges the step-error
hypothesis. -/
theorem c2_rpc_error_handling_witness :
    MultiKafka.step "n0" ["n0"] MultiKafka.freshState
      (.message MultiKafka.demoPoll) [MultiKafka.demoErrReply] =
      .fail (.rpc 13 "temporarily unavailable")
        [kv_message "n0" "lin-kv" 2 none (.kvRead "entry_k1_0-20")] ∧
    MultiKafka.main_loop_go "n0" ["n0"] 1 MultiKafka.freshState
      [MultiKafka.demoPoll, MultiKafka.demoErrReply] [] =
      .failed (.rpc 13 "temporarily unavailable")
        [kv_message "n0" "lin-kv" 2 none (.kvRead "entry_k1_0-20")] :=
  ⟨by rfl, by
    simpa using (c2_rpc_error_handling "n0" ["n0"] MultiKafka.freshState []
      [MultiKafka.demoErrReply] [] [kv_message "n0" "lin-kv" 2 none
        (.kvRead "entry_k1_0-20")] "x" "y" none none 0 "t" 0
      MultiKafka.demoPoll (.rpc 13 "temporarily unavailable")
      (by rfl)).2.2⟩

/-- C3, counterexample.  From fresh state the single-node Kafka
storage's second `send{key:"k1",msg:200}` returns offset 20 (the byte
position of the second record), not the offset 1 the claim requires. -/
theorem c3_second_offset_not_one :
    (SingleKafka.send (SingleKafka.send SingleKafka.initStorage "k1" 100).2
      "k1" 200).1 = 20 ∧
    ¬ ((SingleKafka.send (SingleKafka.send SingleKafka.initStorage "k1" 100).2
      "k1" 200).1 = 1) :=
  ⟨rfl, by decide⟩

/-- C3, amended: from fresh state the first send of "k1" returns offset
0 in both variants; the second send returns offset 1 in the multi-node
variant but byte offset 20 in the single-node variant (each u64 record
occupies 4 + 8 + 8 = 20 bytes).  The multi-node conjuncts run the full
`step` against the lin-kv service: the service-replies fixpoint
conjuncts check that the reply queues fed to the node are exactly the
replies the service gives to the requests the node sends. -/
theorem c3_first_offsets :
    (SingleKafka.send SingleKafka.initStorage "k1" 100).1 = 0 ∧
    (SingleKafka.send (SingleKafka.send SingleKafka.initStorage "k1" 100).2
      "k1" 200).1 = 20 ∧
    MultiKafka.step "n0" ["n0"] MultiKafka.freshState
      (.message (MultiKafka.clientSend 5 "k1" 100)) MultiKafka.freshSendReplies =
      .ok { id := 6, stash_event := [] } [] MultiKafka.firstSendOut ∧
    MultiKafka.serviceReplies [] (MultiKafka.kvRequests MultiKafka.firstSendOut) =
      MultiKafka.freshSendReplies.map (·.body.payload) ∧
    MultiKafka.step "n0" ["n0"] { id := 6, stash_event := [] }
      (.message (MultiKafka.clientSend 6 "k1" 200)) MultiKafka.secondSendReplies =
      .ok { id := 11, stash_event := [] } [] MultiKafka.secondSendOut ∧
    MultiKafka.serviceReplies
      (MultiKafka.serviceState [] (MultiKafka.kvRequests MultiKafka.firstSendOut))
      (MultiKafka.kvRequests MultiKafka.secondSendOut) =
      MultiKafka.secondSendReplies.map (·.body.payload) :=
  ⟨rfl, rfl, rfl, rfl, rfl, rfl⟩

/-- C4, counterexample.  The claim states every outbound message after
the init reply carries a msg_id, strictly increasing from 1.  In the
demo run the node burns id 1 on a gossip receipt (no reply), so the
first reply carries id 2, and the gossip fan-out message carries no
msg_id at all — the claim predicate fails on the run's outputs. -/
theorem c4_msg_id_claim_refuted :
    ¬ Broadcast.msgIdsClaim (Broadcast.runOutputs
      (Broadcast.initState "n1" ["n1", "n2"]) Broadcast.demoEvents) := by
  simp only [Broadcast.msgIdsClaim]
  decide

/-- C4, amended: over any run of the broadcast node from init, the
msg_ids of outbound messages that carry one are strictly increasing and
all ≥ 1 (ids may skip values, and the first sent id need not be 1,
because `into_reply` advances the counter even in arms that send
nothing); gossip fan-out messages carry no msg_id. -/
theorem c4_msg_id_monotone (node_id : String) (node_ids : List String)
    (evs : List Rustengan.Broadcast.BEvent) (s : Rustengan.Broadcast.BState)
    (out : List Rustengan.Broadcast.BMsg)
    (h : Broadcast.run (Broadcast.initState node_id node_ids) evs =
      some (s, out)) :
    List.Chain' (· < ·) (out.filterMap fun m => m.body.id) ∧
    (∀ j ∈ out.filterMap fun m => m.body.id, 1 ≤ j) ∧
    (∀ m ∈ out, Broadcast.isGossipB m.body.payload = true →
      m.body.id = none) := by
  obtain ⟨le, ch, bd, g⟩ := Broadcast.brd_run_ids evs _ _ _ h
  exact ⟨ch, fun j hj => (bd j hj).1, g⟩

/-- C4 witness: the demo run discharges the hypothesis; its three
outbound messages carry ids 2, 3 and none. -/
theorem c4_msg_id_monotone_witness :
    Broadcast.run (Broadcast.initState "n1" ["n1", "n2"]) Broadcast.demoEvents =
      some ({ id := 4, node_id := "n1", messages := {42},
              neighborhood := ["n2"], known := [("n1", ∅), ("n2", ∅)],
              gossip_delta := 0 },
            [{ src := "n1", dst := "c1",
               body := { id := some 2, inReplyTo := some 3,
                         payload := .broadcastOk } },
             { src := "n1", dst := "c1",
               body := { id := some 3, inReplyTo := some 4,
                         payload := .topologyOk } },
             { src := "n1", dst := "n2",
               body := { id := none, inReplyTo := none,
                         payload := .gossip {42} } }]) ∧
    List.Chain' (· < ·)
      (([{ src := "n1", dst := "c1",
           body := { id := some 2, inReplyTo := some 3,
                     payload := Rustengan.Broadcast.BPayload.broadcastOk } },
         { src := "n1", dst := "c1",
           body := { id := some 3, inReplyTo := some 4,
                     payload := Rustengan.Broadcast.BPayload.topologyOk } },
         { src := "n1", dst := "n2",
           body := { id := none, inReplyTo := none,
                     payload := Rustengan.Broadcast.BPayload.gossip {42} } }] :
        List Rustengan.Broadcast.BMsg).filterMap fun m => m.body.id) :=
  ⟨by decide,
    (c4_msg_id_monotone "n1" ["n1", "n2"] Broadcast.demoEvents
      { id := 4, node_id := "n1", messages := {42},
        neighborhood := ["n2"], known := [("n1", ∅), ("n2", ∅)],
        gossip_delta := 0 }
      [{ src := "n1", dst := "c1",
         body := { id := some 2, inReplyTo := some 3,
                   payload := .broadcastOk } },
       { src := "n1", dst := "c1",
         body := { id := some 3, inReplyTo := some 4,
                   payload := .topologyOk } },
       { src := "n1", dst := "n2",
         body := { id := none, inReplyTo := none,
                   payload := .gossip {42} } }]
      (by decide)).1⟩

/-- C5: after `commit_offsets{k: o}`, `list_committed_offsets([k])`
returns `{k: o}`, and a later commit of o' overwrites.  Multi-node
conjuncts: the commit issues exactly one plain write of `commit_<k>`;
the lin-kv service answers that write with `write_ok` and stores the
value; the service answers the list's read with the stored string; and
the list parses it back to `{k: o}` (resp. `{k: o'}` after the second
commit).  Single-node conjuncts: the committed-offsets map behaves the
same way. -/
theorem c5_commit_then_list (st : List (String × String))
    (stS : Rustengan.SingleKafka.KafkaStorage) (k : String) (o o' i : Nat)
    (nid : String) (irt : Option Nat)
    (sh outp : List Rustengan.MultiKafka.KMsg)
    (ho : o < 2 ^ 64) (ho' : o' < 2 ^ 64) :
    MultiKafka.LinKv.commit_offsets
      { id := i, node_id := nid, in_reply_to := irt, stash_event := sh,
        queue := [MultiKafka.kvReply nid .writeOk], sent := outp } [(k, o)] =
      (.ok (),
       { id := i + 1, node_id := nid, in_reply_to := none, stash_event := sh,
         queue := [],
         sent := outp ++ [kv_message nid "lin-kv" i irt
           (.write ("commit_" ++ k) (natToString o))] }) ∧
    MultiKafka.serviceReplies st [.write ("commit_" ++ k) (natToString o)] =
      [.writeOk] ∧
    MultiKafka.serviceState st [.write ("commit_" ++ k) (natToString o)] =
      alPut st ("commit_" ++ k) (natToString o) ∧
    MultiKafka.serviceReplies (alPut st ("commit_" ++ k) (natToString o))
      [.kvRead ("commit_" ++ k)] = [.readOk (natToString o)] ∧
    MultiKafka.LinKv.list_committed_offsets
      { id := i, node_id := nid, in_reply_to := irt, stash_event := sh,
        queue := [MultiKafka.kvReply nid (.readOk (natToString o))],
        sent := outp } [k] =
      ([(k, o)],
       { id := i + 1, node_id := nid, in_reply_to := none, stash_event := sh,
         queue := [],
         sent := outp ++ [kv_message nid "lin-kv" i irt
           (.kvRead ("commit_" ++ k))] }) ∧
    MultiKafka.serviceReplies
      (alPut (alPut st ("commit_" ++ k) (natToString o)) ("commit_" ++ k)
        (natToString o')) [.kvRead ("commit_" ++ k)] =
      [.readOk (natToString o')] ∧
    MultiKafka.LinKv.list_committed_offsets
      { id := i, node_id := nid, in_reply_to := irt, stash_event := sh,
        queue := [MultiKafka.kvReply nid (.readOk (natToString o'))],
        sent := outp } [k] =
      ([(k, o')],
       { id := i + 1, node_id := nid, in_reply_to := none, stash_event := sh,
         queue := [],
         sent := outp ++ [kv_message nid "lin-kv" i irt
           (.kvRead ("commit_" ++ k))] }) ∧
    SingleKafka.list_committed_offsets
      (SingleKafka.commit_offsets stS [(k, o)]) [k] = [(k, o)] ∧
    SingleKafka.list_committed_offsets
      (SingleKafka.commit_offsets (SingleKafka.commit_offsets stS [(k, o)])
        [(k, o')]) [k] = [(k, o')] := by
  refine ⟨rfl, rfl, rfl, ?_, ?_, ?_, ?_, ?_, ?_⟩
  · simp [MultiKafka.serviceReplies, MultiKafka.linKvService, alGet_alPut_self]
  · simp only [MultiKafka.LinKv.list_committed_offsets, MultiKafka.LinKv.listGo,
      MultiKafka.LinKv.read, MultiKafka.LinKv.readLoop, MultiKafka.kvReply,
      kv_message, List.isEmpty_cons, List.length_cons, List.length_nil,
      rustParseU64_natToString ho]
    rfl
  · simp [MultiKafka.serviceReplies, MultiKafka.linKvService, alGet_alPut_self]
  · simp only [MultiKafka.LinKv.list_committed_offsets, MultiKafka.LinKv.listGo,
      MultiKafka.LinKv.read, MultiKafka.LinKv.readLoop, MultiKafka.kvReply,
      kv_message, List.isEmpty_cons, List.length_cons, List.length_nil,
      rustParseU64_natToString ho']
    rfl
  · simp [SingleKafka.list_committed_offsets, SingleKafka.commit_offsets,
      alGet_alPut_self]
  · simp [SingleKafka.list_committed_offsets, SingleKafka.commit_offsets,
      alGet_alPut_self]

/-- C5 witness: commit 5 then 7 for key "k1" at concrete inputs. -/
theorem c5_commit_then_list_witness :
    5 < 2 ^ 64 ∧ 7 < 2 ^ 64 ∧
    MultiKafka.LinKv.list_committed_offsets
      { id := 1, node_id := "n0", in_reply_to := none, stash_event := [],
        queue := [MultiKafka.kvReply "n0" (.readOk (natToString 5))],
        sent := [] } ["k1"] =
      ([("k1", 5)],
       { id := 2, node_id := "n0", in_reply_to := none, stash_event := [],
         queue := [],
         sent := [] ++ [kv_message "n0" "lin-kv" 1 none
           (.kvRead ("commit_" ++ "k1"))] }) :=
  ⟨by decide, by decide,
    (c5_commit_then_list [] SingleKafka.initStorage "k1" 5 7 1 "n0" none [] []
      (by decide) (by decide)).2.2.2.2.1⟩

/-- C8: the topology handler's own comment requires the neighborhood to
stay below half the topology size, but `Vec::shrink_to` only lowers
capacity.  At the failing input — node n1 receiving the four-node
topology `{n1: [n2,n3,n4], n2: [], n3: [], n4: []}` — the resulting
neighborhood keeps all three seed entries for every random outcome,
exceeding the cap 4 / 2 = 2. -/
theorem c8_neighborhood_cap_violated (sel : String → Bool) (mid : Nat) :
    Broadcast.newNeighborhood
      [("n1", ["n2", "n3", "n4"]), ("n2", []), ("n3", []), ("n4", [])]
      "n1" sel = some ["n2", "n3", "n4"] ∧
    Broadcast.step (Broadcast.initState "n1" ["n1", "n2", "n3", "n4"])
      (.message { src := "c1", dst := "n1",
                  body := { id := some mid, inReplyTo := none,
                            payload := .topology [("n1", ["n2", "n3", "n4"]),
                              ("n2", []), ("n3", []), ("n4", [])] } } sel) =
      some ({ Broadcast.initState "n1" ["n1", "n2", "n3", "n4"] with
                id := 2
                neighborhood := ["n2", "n3", "n4"] },
            [{ src := "n1", dst := "c1",
               body := { id := some 1, inReplyTo := some mid,
                         payload := .topologyOk } }]) ∧
    ¬ ((["n2", "n3", "n4"] : List String).length ≤
        ([("n1", ["n2", "n3", "n4"]), ("n2", []), ("n3", []), ("n4", [])] :
          List (String × List String)).length / 2) :=
  ⟨rfl, rfl, by decide⟩

/-- C6: the broadcast state invariant — every peer's known set is a
subset of the local message set, and every value delivered by a
`broadcast` request is in the message set — holds at init and is
preserved by every run of steps (broadcast, read, topology, gossip
receipt, injected gossip tick, EOF), for every random outcome. -/
theorem c6_broadcast_invariant (node_id : String) (node_ids : List String)
    (evs : List Rustengan.Broadcast.BEvent) (s : Rustengan.Broadcast.BState)
    (out : List Rustengan.Broadcast.BMsg)
    (h : Broadcast.run (Broadcast.initState node_id node_ids) evs =
      some (s, out)) :
    Broadcast.KnownSub (Broadcast.initState node_id node_ids) ∧
    Broadcast.KnownSub s ∧
    (∀ v ∈ Broadcast.deliveredValues evs, v ∈ s.messages) := by
  have hinit : Broadcast.KnownSub (Broadcast.initState node_id node_ids) := by
    intro p ks hm
    simp only [Broadcast.initState, List.mem_map, Prod.mk.injEq] at hm
    obtain ⟨a, ha, h1, h2⟩ := hm
    rw [← h2]
    exact Finset.empty_subset _
  obtain ⟨m, k, d⟩ := Broadcast.brd_run_pres evs _ _ _ h
  exact ⟨hinit, k hinit, d⟩

/-- C6 witness: a single delivered broadcast of 42. -/
theorem c6_broadcast_invariant_witness :
    Broadcast.run (Broadcast.initState "n1" ["n1", "n2"])
      [.message { src := "c1", dst := "n1",
                  body := { id := some 3, inReplyTo := none,
                            payload := .broadcast 42 } } (fun _ => false)] =
      some ({ id := 2, node_id := "n1", messages := {42}, neighborhood := [],
              known := [("n1", ∅), ("n2", ∅)], gossip_delta := 0 },
            [{ src := "n1", dst := "c1",
               body := { id := some 1, inReplyTo := some 3,
                         payload := .broadcastOk } }]) ∧
    ∀ v ∈ Broadcast.deliveredValues
        [.message { src := "c1", dst := "n1",
                    body := { id := some 3, inReplyTo := none,
                              payload := .broadcast 42 } } (fun _ => false)],
      v ∈ ({ id := 2, node_id := "n1", messages := {42}, neighborhood := [],
             known := [("n1", ∅), ("n2", ∅)], gossip_delta := 0 } :
        Rustengan.Broadcast.BState).messages :=
  ⟨by rfl,
    (c6_broadcast_invariant "n1" ["n1", "n2"] _ _ _ (by rfl)).2.2⟩

/-- C7: the counter add path.  (1) `delta == 0` returns at once with no
KV traffic and (2) the step replies `add_ok` immediately; (3) otherwise
`add_delta` enters the retry loop, whose iterations (4) read the current
value and CAS from `old` to `old + delta` with `create_if_not_exists =
true`, (5) loop again from a fresh read when the CAS reply is
precondition-failed (code 22), (6) treat a key-not-exist read (code 20)
as 0 after initializing the key, (7) propagate any other CAS error and
(8) any other read error as typed RPC errors. -/
theorem c7_add_delta_protocol (i fuel delta old code : Nat)
    (nid t src dst : String) (irt mid : Option Nat)
    (q rest outp : List Rustengan.Counter.CMsg) (rnd : Nat)
    (hd : delta ≠ 0) (hc : code ≠ 22) (hc20 : code ≠ 20) :
    Counter.add_delta { id := i, node_id := nid, in_reply_to := irt, queue := q,
                        sent := outp } 0 =
      (.ok (), { id := i, node_id := nid, in_reply_to := irt, queue := q,
                 sent := outp }) ∧
    Counter.counterStep nid i
      (.message { src := src, dst := dst,
                  body := { id := mid, inReplyTo := none, payload := .add 0 } })
      q rnd =
      .ok (i + 1) q
        [{ src := dst, dst := src,
           body := { id := some i, inReplyTo := mid, payload := .addOk } }] ∧
    Counter.add_delta { id := i, node_id := nid, in_reply_to := irt, queue := q,
                        sent := outp } delta =
      Counter.addDeltaGo (q.length + 1)
        { id := i, node_id := nid, in_reply_to := irt, queue := q,
          sent := outp } delta ∧
    Counter.addDeltaGo (fuel + 1)
      { id := i, node_id := nid, in_reply_to := irt,
        queue := Counter.seqReply nid (.readOk old) ::
          Counter.seqReply nid .casOk :: rest,
        sent := outp } delta =
      (.ok (),
       { id := i + 2, node_id := nid, in_reply_to := none, queue := rest,
         sent := outp ++
           [kv_message nid "seq-kv" i irt (.kvRead "Counter"),
            kv_message nid "seq-kv" (i + 1) none
              (.cas "Counter" old ((old + delta) % 2 ^ 64) true)] }) ∧
    Counter.addDeltaGo (fuel + 1)
      { id := i, node_id := nid, in_reply_to := irt,
        queue := Counter.seqReply nid (.readOk old) ::
          Counter.seqReply nid (.error 22 t) :: rest,
        sent := outp } delta =
      Counter.addDeltaGo fuel
        { id := i + 2, node_id := nid, in_reply_to := none, queue := rest,
          sent := outp ++
            [kv_message nid "seq-kv" i irt (.kvRead "Counter"),
             kv_message nid "seq-kv" (i + 1) none
               (.cas "Counter" old ((old + delta) % 2 ^ 64) true)] } delta ∧
    Counter.addDeltaGo (fuel + 1)
      { id := i, node_id := nid, in_reply_to := irt,
        queue := Counter.seqReply nid (.error 20 t) ::
          Counter.seqReply nid .writeOk ::
          Counter.seqReply nid .casOk :: rest,
        sent := outp } delta =
      (.ok (),
       { id := i + 3, node_id := nid, in_reply_to := none, queue := rest,
         sent := outp ++
           [kv_message nid "seq-kv" i irt (.kvRead "Counter"),
            kv_message nid "seq-kv" (i + 1) none (.write "Counter" 0),
            kv_message nid "seq-kv" (i + 2) none
              (.cas "Counter" 0 ((0 + delta) % 2 ^ 64) true)] }) ∧
    Counter.addDeltaGo (fuel + 1)
      { id := i, node_id := nid, in_reply_to := irt,
        queue := Counter.seqReply nid (.readOk old) ::
          Counter.seqReply nid (.error code t) :: rest,
        sent := outp } delta =
      (.error (.rpc code t),
       { id := i + 2, node_id := nid, in_reply_to := none, queue := rest,
         sent := outp ++
           [kv_message nid "seq-kv" i irt (.kvRead "Counter"),
            kv_message nid "seq-kv" (i + 1) none
              (.cas "Counter" old ((old + delta) % 2 ^ 64) true)] }) ∧
    Counter.addDeltaGo (fuel + 1)
      { id := i, node_id := nid, in_reply_to := irt,
        queue := Counter.seqReply nid (.error code t) :: rest,
        sent := outp } delta =
      (.error (.rpc code t),
       { id := i + 1, node_id := nid, in_reply_to := none, queue := rest,
         sent := outp ++
           [kv_message nid "seq-kv" i irt (.kvRead "Counter")] }) := by
  refine ⟨rfl, rfl, ?_, ?_, ?_, ?_, ?_, ?_⟩
  · unfold Counter.add_delta
    rw [if_neg hd]
  · simp only [Counter.addDeltaGo, Counter.read_inner, Counter.seqRead,
      Counter.seqCas, Counter.seqReply, kv_message,
      List.append_assoc, List.cons_append, List.nil_append]
  · simp only [Counter.addDeltaGo, Counter.read_inner, Counter.seqRead,
      Counter.seqCas, Counter.seqReply, kv_message,
      List.append_assoc, List.cons_append, List.nil_append]
  · simp only [Counter.addDeltaGo, Counter.read_inner, Counter.seqRead,
      Counter.seqWrite, Counter.seqCas, Counter.seqReply, kv_message,
      List.append_assoc, List.cons_append, List.nil_append]
  · simp only [Counter.addDeltaGo, Counter.read_inner, Counter.seqRead,
      Counter.seqCas, Counter.seqReply, kv_message,
      List.append_assoc, List.cons_append, List.nil_append]
  · simp only [Counter.addDeltaGo, Counter.read_inner, Counter.seqRead,
      Counter.seqWrite, Counter.seqCas, Counter.seqReply, kv_message,
      List.append_assoc, List.cons_append, List.nil_append]
    split
    all_goals simp_all

/-- C7 witness: delta 3 against value 4 with a successful CAS; the error
codes 13 discharge the "other error" hypotheses. -/
theorem c7_add_delta_protocol_witness :
    (3 : Nat) ≠ 0 ∧ (13 : Nat) ≠ 22 ∧ (13 : Nat) ≠ 20 ∧
    Counter.addDeltaGo 2
      { id := 1, node_id := "n0", in_reply_to := none,
        queue := Counter.seqReply "n0" (.readOk 4) ::
          Counter.seqReply "n0" .casOk :: [],
        sent := [] } 3 =
      (.ok (),
       { id := 1 + 2, node_id := "n0", in_reply_to := none, queue := [],
         sent := [] ++
           [kv_message "n0" "seq-kv" 1 none (.kvRead "Counter"),
            kv_message "n0" "seq-kv" (1 + 1) none
              (.cas "Counter" 4 ((4 + 3) % 2 ^ 64) true)] }) :=
  ⟨by decide, by decide, by decide,
    (c7_add_delta_protocol 1 1 3 4 13 "n0" "t" "c1" "n0" none (some 9) [] [] []
      0 (by decide) (by decide) (by decide)).2.2.2.1⟩

/-- C9: a multi-node `send` whose key does not parse as a u64 — or whose
node id lacks a numeric suffix — is serviced locally: the routing
decision is `localSend` for every cluster size, and none of the step's
outbound messages is a `forward_send`.  (A nonempty node id is required
because `&node_id[1..]` panics on an empty string.) -/
theorem c9_nonnumeric_key_local (key node_id : String) (numNodes : Nat)
    (node_ids : List String) (st : Rustengan.MultiKafka.NodeState)
    (queue : List Rustengan.MultiKafka.KMsg) (src dst : String)
    (mid : Option Nat) (msg : Nat)
    (hne : node_id.isEmpty = false)
    (hp : rustParseU64 key = none ∨ rustParseU64 (node_id.drop 1) = none) :
    MultiKafka.routeSend key node_id numNodes = some .localSend ∧
    ∀ m ∈ MultiKafka.outOf (MultiKafka.step node_id node_ids st
        (.message { src := src, dst := dst,
                    body := { id := mid, inReplyTo := none,
                              payload := .send key msg } })
        queue),
      MultiKafka.isForwardSendP m.body.payload = false := by
  have hne2 : ¬ (node_id.isEmpty = true) := by simp [hne]
  have hroute : ∀ nn, MultiKafka.routeSend key node_id nn = some .localSend := by
    intro nn
    unfold MultiKafka.routeSend
    rw [if_neg hne2]
    rcases hp with h | h
    · rw [h]
    · rw [h]
      cases rustParseU64 key <;> rfl
  refine ⟨hroute numNodes, ?_⟩
  intro m hm
  simp only [MultiKafka.step] at hm
  rw [hroute node_ids.length] at hm
  rcases hsend : MultiKafka.LinKv.send
      { id := st.id + 1, node_id := node_id, in_reply_to := none,
        stash_event := st.stash_event, queue := queue, sent := [] }
      key msg with ⟨r, cc⟩
  rw [hsend] at hm
  have hno := MultiKafka.send_sent_no_forward
    { id := st.id + 1, node_id := node_id, in_reply_to := none,
      stash_event := st.stash_event, queue := queue, sent := [] } key msg
  rw [hsend] at hno
  simp only [List.not_mem_nil, false_or] at hno
  cases r with
  | error e =>
    simp only [MultiKafka.outOf] at hm
    exact hno m hm
  | ok offset =>
    simp only [MultiKafka.finish, MultiKafka.outOf] at hm
    rcases List.mem_append.mp hm with h | h
    · exact hno m h
    · simp only [List.mem_singleton] at h
      subst h; rfl

/-- C9 witness: the non-numeric key "abc" at node n1 in a three-node
cluster is routed locally. -/
theorem c9_nonnumeric_key_local_witness :
    ("n1" : String).isEmpty = false ∧ rustParseU64 "abc" = none ∧
    MultiKafka.routeSend "abc" "n1" 3 = some .localSend :=
  ⟨by rfl, by rfl,
    (c9_nonnumeric_key_local "abc" "n1" 3 ["n0", "n1", "n2"]
      MultiKafka.freshState [] "c1" "n1" none 7 (by rfl)
      (Or.inl (by rfl))).1⟩

/-- C10: the multi-node KV `read` turns a code-20 error reply (key does
not exist) into `Ok("")` (first conjunct); consequently a send on a
fresh topic — whose `latest_<k>` read gets the code-20 reply — allocates
offset 0 (second conjunct); and a segment walk that reads an absent
segment gets the empty entries string and stops at once, collecting
nothing beyond its accumulator (third conjunct). -/
theorem c10_key_not_exist_reads_empty (i : Nat) (nid : String)
    (irt : Option Nat) (sh outp rest : List Rustengan.MultiKafka.KMsg)
    (key t t2 e : String) (value ofs : Nat) :
    MultiKafka.LinKv.read
      { id := i, node_id := nid, in_reply_to := irt, stash_event := sh,
        queue := MultiKafka.kvReply nid (.error 20 t) :: rest, sent := outp }
      key =
      (.ok "",
       { id := i + 1, node_id := nid, in_reply_to := none, stash_event := sh,
         queue := rest,
         sent := outp ++ [kv_message nid "lin-kv" i irt (.kvRead key)] }) ∧
    (MultiKafka.LinKv.send
      { id := i, node_id := nid, in_reply_to := irt, stash_event := sh,
        queue := MultiKafka.kvReply nid (.error 20 t) ::
          MultiKafka.kvReply nid .writeOk ::
          MultiKafka.kvReply nid (.readOk e) ::
          MultiKafka.kvReply nid .writeOk :: rest,
        sent := outp } key value).1 = .ok 0 ∧
    MultiKafka.LinKv.read_segment
      { id := i, node_id := nid, in_reply_to := irt, stash_event := sh,
        queue := MultiKafka.kvReply nid (.error 20 t2) :: rest, sent := outp }
      ofs key =
      (.ok (), [],
       { id := i + 1, node_id := nid, in_reply_to := none, stash_event := sh,
         queue := rest,
         sent := outp ++ [kv_message nid "lin-kv" i irt
           (.kvRead (MultiKafka.LinKv.new_key key (ofs - ofs % 20)))] }) :=
  ⟨rfl, rfl, rfl⟩

end Rustengan
